import Mathlib

/-!
Gdev backend adapters: memory objects, contexts and queries.

A shallow embedding of `driver/pscnv/pscnv_gdev.c` (the in-kernel PSCNV
adapter) and `lib/user/nvrm/nvrm_gdev.c` (the user-space NVRM adapter).

The backends themselves (PSCNV, the Linux mapping primitives, libnvrm) are
external.  They are represented by

* a `World`: the chronological log of backend calls, the list of backend
  resources that are currently live, and a counter for fresh handles;
* a backend description (`Pscnv`, `Nvrm`): a deterministic oracle telling, from
  the history so far, whether a fallible backend call succeeds, together with
  the constants and helper functions that the headers of the source tree do
  not define.
-/

namespace Gdev

/-! ## Backend resources, events and the world -/

/-- Backend resources whose lifetime the adapter code manages. -/
inductive Res where
  /-- a record obtained from `kzalloc` / `malloc` -/
  | record (id : Nat)
  /-- a command channel (`pscnv_chan_new`, `nvrm_channel_create_ib`) -/
  | chan (id : Nat)
  /-- a buffer object with the size and flags the backend recorded for it -/
  | bo (id size flags : Nat)
  /-- a mapping into the virtual address space, starting at `start` -/
  | vasmap (start : Nat)
  /-- a `vmap` of the pages of buffer `bo` -/
  | vmap (bo : Nat)
  /-- a `kmap` of the first page of buffer `bo` -/
  | kmap (bo : Nat)
  /-- a host mapping of an NVRM buffer (`nvrm_bo_host_map`) -/
  | hostmap (bo : Nat)
  /-- an engine object created on a channel (`nvrm_eng_create`) -/
  | eng (chan : Nat)
  /-- the host mapping of a channel's control registers -/
  | regs (chan : Nat)
  deriving DecidableEq, Repr

/-- The fallible backend calls, as asked of the oracle. -/
inductive Req where
  | kzalloc
  | pscnv_chan_new
  | pscnv_mem_alloc (size flags : Nat)
  | pscnv_vspace_map (bo : Nat)
  | vmap (bo : Nat)
  | chan_init_ib (chan : Nat)
  | malloc
  | nvrm_bo_create (size sysram : Nat)
  | nvrm_bo_host_map (bo : Nat)
  | nvrm_channel_create_ib (cls ib : Nat)
  | nvrm_eng_create (chan ccls : Nat)
  | nvrm_channel_host_map_regs (chan : Nat)
  deriving DecidableEq, Repr

/-- One entry of the log of backend calls. -/
inductive Ev where
  /-- a backend call that handed out resource `r` -/
  | acq (r : Res)
  /-- a backend call that gave resource `r` back -/
  | rel (r : Res)
  /-- the call `priv->fifo->chan_init_ib(chan, 0, 0, 1, ib_base, ib_order)` -/
  | chan_init_ib (chan ib_base ib_order : Nat)
  /-- the call `nvc0_fifo_ctrl_ptr(drm, chan)` -/
  | nvc0_fifo_ctrl_ptr (chan : Nat)
  /-- the call `compute->init(ctx)` -/
  | compute_init
  /-- a fallible backend call that was made and failed -/
  | refused (q : Req)
  deriving DecidableEq, Repr

/-- The state of the backend as far as the adapters can observe it. -/
structure World where
  /-- backend calls so far, oldest first -/
  trace : List Ev
  /-- resources handed out and not yet given back, newest first -/
  live : List Res
  /-- the next fresh handle -/
  next : Nat
  deriving DecidableEq, Repr

/-- A backend call hands out `r`. -/
def World.acquire (w : World) (r : Res) : World :=
  { trace := w.trace ++ [Ev.acq r], live := r :: w.live, next := w.next + 1 }

/-- A backend call gives `r` back. -/
def World.release (w : World) (r : Res) : World :=
  { trace := w.trace ++ [Ev.rel r], live := w.live.erase r, next := w.next }

/-- A backend call that neither hands out nor gives back a resource. -/
def World.call (w : World) (e : Ev) : World :=
  { trace := w.trace ++ [e], live := w.live, next := w.next }

/-- A fallible backend call `q` is made and fails. -/
def World.refuse (w : World) (q : Req) : World := w.call (Ev.refused q)

/-- The calls that establish a host-side mapping. -/
def Req.isHostMap : Req → Bool
  | Req.vmap _ => true
  | Req.nvrm_bo_host_map _ => true
  | Req.nvrm_channel_host_map_regs _ => true
  | _ => false

/-- The resources handed out by a run of events, in order. -/
def acqs : List Ev → List Res
  | [] => []
  | Ev.acq r :: es => r :: acqs es
  | _ :: es => acqs es

/-- The resources given back by a run of events, in order. -/
def rels : List Ev → List Res
  | [] => []
  | Ev.rel r :: es => r :: rels es
  | _ :: es => rels es

/-- The empty world. -/
def World.init : World := { trace := [], live := [], next := 0 }

/-! ## The kernel adapter: `driver/pscnv/pscnv_gdev.c` -/

/-- The fields of `struct pscnv_bo` the adapter reads. -/
structure pscnv_bo where
  id : Nat
  size : Nat
  flags : Nat
  deriving DecidableEq, Repr

/-- The resource a `pscnv_bo` stands for. -/
def pscnv_bo.res (bo : pscnv_bo) : Res := Res.bo bo.id bo.size bo.flags

/-- The fields of `struct gdev_device` the adapters touch. -/
structure gdev_device where
  users : Int
  mem_used : Nat
  chipset : Nat
  deriving DecidableEq, Repr

/-- A virtual address space object: `pvas` is the backend handle. -/
structure gdev_vas where
  pvas : Nat
  deriving DecidableEq, Repr

/-- The kernel adapter's memory object (`struct gdev_mem`). -/
structure gdev_mem where
  /-- the `kzalloc` record holding the object -/
  id : Nat
  vas : gdev_vas
  bo : pscnv_bo
  addr : Nat
  /-- the host pointer; `none` is `NULL` -/
  map : Option Nat
  deriving DecidableEq, Repr

/-- The ring cursors of a context's FIFO. -/
structure fifo_cursors where
  ib_get : Nat
  ib_put : Nat
  pb_get : Nat
  pb_put : Nat
  pb_pos : Nat
  deriving DecidableEq, Repr

/-- The FIFO part of the kernel adapter's context. -/
structure gdev_fifo where
  ib_order : Nat
  ib_bo : pscnv_bo
  ib_map : Option Nat
  ib_base : Nat
  ib_mask : Nat
  ib_put : Nat
  ib_get : Nat
  pb_order : Nat
  pb_bo : pscnv_bo
  pb_map : Option Nat
  pb_base : Nat
  pb_mask : Nat
  pb_size : Nat
  pb_pos : Nat
  pb_put : Nat
  pb_get : Nat
  regs : Nat
  deriving DecidableEq, Repr

/-- The fence part of the kernel adapter's context. -/
structure gdev_fence where
  bo : pscnv_bo
  map : Option Nat
  addr : Nat
  sequence : List Nat
  deriving DecidableEq, Repr

/-- The kernel adapter's context (`struct gdev_ctx`). -/
structure gdev_ctx where
  /-- the `kzalloc` record holding the context -/
  id : Nat
  fifo : gdev_fifo
  fence : gdev_fence
  vas : gdev_vas
  pctx : Nat
  deriving DecidableEq, Repr

/-- The PSCNV backend: oracle, helper functions and the constants that the
headers of the source tree leave undefined. -/
structure Pscnv where
  /-- does the fallible call succeed, given the calls so far? -/
  ok : List Ev → Req → Bool
  /-- the `mm->start` of the mapping `pscnv_vspace_map` creates for a buffer -/
  mm_start : Nat → Nat
  /-- the `bo->size` recorded by `pscnv_mem_alloc` for a requested size -/
  bo_size : Nat → Nat
  /-- the value of `nvc0_fifo_ctrl_ptr(drm, chan)` -/
  nvc0_fifo_ctrl_ptr : Nat → Nat
  PAGE_SIZE : Nat
  PSCNV_GEM_VRAM_SMALL : Nat
  PSCNV_GEM_SYSRAM_SNOOP : Nat
  GDEV_MEM_DEVICE : Int
  GDEV_MEM_DMA : Int
  GDEV_FENCE_COUNT : Nat
  /-- Modelled from the spec: the `compute->init` hook is not in the source
  tree.  The spec describes it as programming the initial channel state, which
  is done by submitting commands through the context's rings; its effect on the
  context record is therefore the ring cursors it leaves behind. -/
  compute_init : gdev_ctx → fifo_cursors

/-- The call `vmap(bo->pages, bo->size >> PAGE_SHIFT, 0, PAGE_KERNEL)`: may return
`NULL`. -/
def Pscnv.vmap (B : Pscnv) (bo : pscnv_bo) (w : World) : Option Nat × World :=
  if B.ok w.trace (Req.vmap bo.id) then (some bo.id, w.acquire (Res.vmap bo.id))
  else (none, w.refuse (Req.vmap bo.id))

/-- The call `vunmap(addr)`: does nothing for `NULL`. -/
def vunmap (addr : Option Nat) (w : World) : World :=
  match addr with
  | some p => w.release (Res.vmap p)
  | none => w

/-- The call `kmap(bo->pages[0])`: always yields an address. -/
def kmap (bo : pscnv_bo) (w : World) : Option Nat × World :=
  (some bo.id, w.acquire (Res.kmap bo.id))

/-- The `kunmap` of the mapping of the first page of buffer `p`. -/
def kunmap (p : Nat) (w : World) : World := w.release (Res.kmap p)

/-- The body of `__gdev_mem_alloc(vas, size, flags)`. -/
def __gdev_mem_alloc (B : Pscnv) (vas : gdev_vas) (size flags : Nat) (w : World) :
    Option gdev_mem × World :=
  -- mem = kzalloc(...)
  if B.ok w.trace Req.kzalloc = false then (none, w.refuse Req.kzalloc) else
  let mem := w.next
  let w1 := w.acquire (Res.record mem)
  -- bo = pscnv_mem_alloc(drm, size, flags, 0, 0)
  if B.ok w1.trace (Req.pscnv_mem_alloc size flags) = false then
    -- fail_bo: kfree(mem)
    (none, (w1.refuse (Req.pscnv_mem_alloc size flags)).release (Res.record mem))
  else
  let bo : pscnv_bo := { id := w1.next, size := B.bo_size size, flags := flags }
  let w2 := w1.acquire bo.res
  -- pscnv_vspace_map(vspace, bo, ..., &mm)
  if B.ok w2.trace (Req.pscnv_vspace_map bo.id) = false then
    -- fail_map: pscnv_mem_free(bo); kfree(mem)
    (none, (((w2.refuse (Req.pscnv_vspace_map bo.id)).release bo.res).release
              (Res.record mem)))
  else
  let start := B.mm_start bo.id
  let w3 := w2.acquire (Res.vasmap start)
  let mw : Option Nat × World :=
    if flags &&& B.PSCNV_GEM_SYSRAM_SNOOP ≠ 0 then
      if size > B.PAGE_SIZE then B.vmap bo w3 else kmap bo w3
    else (none, w3)
  (some { id := mem, vas := vas, bo := bo, addr := start, map := mw.1 }, mw.2)

/-- The body of `__gdev_mem_free(mem)`. -/
def __gdev_mem_free (B : Pscnv) (mem : gdev_mem) (w : World) : World :=
  let w1 :=
    match mem.map with
    | some p => if mem.bo.size > B.PAGE_SIZE then vunmap (some p) w else kunmap p w
    | none => w
  let w2 := w1.release (Res.vasmap mem.addr)
  let w3 := w2.release mem.bo.res
  w3.release (Res.record mem.id)

/-- The update `gdev->mem_used += size` on a 64-bit counter. -/
def mem_used_add (gdev : gdev_device) (size : Nat) : gdev_device :=
  { gdev with mem_used := (gdev.mem_used + size) % 2 ^ 64 }

/-- The update `gdev->mem_used -= size` on a 64-bit counter. -/
def mem_used_sub (gdev : gdev_device) (size : Nat) : gdev_device :=
  { gdev with mem_used := (gdev.mem_used + (2 ^ 64 - size % 2 ^ 64)) % 2 ^ 64 }

/-- The `default:` arm of the switch in `gdev_mem_alloc`: `mem = NULL`. -/
def gdev_mem_alloc_default (gdev : gdev_device) (w : World) :
    Option gdev_mem × gdev_device × World :=
  (none, gdev, w)

/-- The `case GDEV_MEM_DMA:` arm: there is no `break`, so control continues
into `default:`. -/
def gdev_mem_alloc_dma (B : Pscnv) (vas : gdev_vas) (size : Nat)
    (gdev : gdev_device) (w : World) : Option gdev_mem × gdev_device × World :=
  let r := __gdev_mem_alloc B vas size B.PSCNV_GEM_SYSRAM_SNOOP w
  gdev_mem_alloc_default gdev r.2

/-- The `case GDEV_MEM_DEVICE:` arm: there is no `break`, so control continues
into `case GDEV_MEM_DMA:`. -/
def gdev_mem_alloc_device (B : Pscnv) (vas : gdev_vas) (size : Nat)
    (gdev : gdev_device) (w : World) : Option gdev_mem × gdev_device × World :=
  let r := __gdev_mem_alloc B vas size B.PSCNV_GEM_VRAM_SMALL w
  let gdev1 := if r.1.isSome then mem_used_add gdev size else gdev
  gdev_mem_alloc_dma B vas size gdev1 r.2

/-- The body of `gdev_mem_alloc(vas, size, type)`; `gdev` is `vas->gdev`. -/
def gdev_mem_alloc (B : Pscnv) (vas : gdev_vas) (size : Nat) (type : Int)
    (gdev : gdev_device) (w : World) : Option gdev_mem × gdev_device × World :=
  if type = B.GDEV_MEM_DEVICE then gdev_mem_alloc_device B vas size gdev w
  else if type = B.GDEV_MEM_DMA then gdev_mem_alloc_dma B vas size gdev w
  else gdev_mem_alloc_default gdev w

/-- The body of `gdev_mem_free(mem)`; `gdev` is `mem->vas->gdev`. -/
def gdev_mem_free (B : Pscnv) (mem : gdev_mem) (gdev : gdev_device) (w : World) :
    gdev_device × World :=
  let gdev1 :=
    if mem.bo.flags &&& B.PSCNV_GEM_VRAM_SMALL ≠ 0 then mem_used_sub gdev mem.bo.size
    else gdev
  (gdev1, __gdev_mem_free B mem w)

/-! ### Context creation and destruction (kernel) -/

/-- Label `fail_ctx` of `gdev_ctx_new`. -/
def fail_ctx (w : World) : World := w

/-- Label `fail_chan`: `kfree(ctx)`. -/
def fail_chan (ctx : Nat) (w : World) : World :=
  fail_ctx (w.release (Res.record ctx))

/-- Label `fail_ib`: `pscnv_chan_unref(chan)`. -/
def fail_ib (ctx chan : Nat) (w : World) : World :=
  fail_chan ctx (w.release (Res.chan chan))

/-- Label `fail_ibmap`: `pscnv_mem_free(ib_bo)`. -/
def fail_ibmap (ctx chan : Nat) (ib_bo : pscnv_bo) (w : World) : World :=
  fail_ib ctx chan (w.release ib_bo.res)

/-- Label `fail_pb`: `vunmap(ctx->fifo.ib_map)`, then
`pscnv_vspace_unmap(vspace, ib_mm->start)`. -/
def fail_pb (ctx chan : Nat) (ib_bo : pscnv_bo) (ib_start : Nat) (ib_map : Option Nat)
    (w : World) : World :=
  fail_ibmap ctx chan ib_bo ((vunmap ib_map w).release (Res.vasmap ib_start))

/-- Label `fail_pbmap`: `pscnv_mem_free(pb_bo)`. -/
def fail_pbmap (ctx chan : Nat) (ib_bo : pscnv_bo) (ib_start : Nat) (ib_map : Option Nat)
    (pb_bo : pscnv_bo) (w : World) : World :=
  fail_pb ctx chan ib_bo ib_start ib_map (w.release pb_bo.res)

/-- Labels `fail_fence_alloc`, `fail_fifo_reg` and `fail_fifo_init` (one
place): `vunmap(ctx->fifo.pb_map)`, then
`pscnv_vspace_unmap(vspace, pb_mm->start)`. -/
def fail_fifo_init (ctx chan : Nat) (ib_bo : pscnv_bo) (ib_start : Nat)
    (ib_map : Option Nat) (pb_bo : pscnv_bo) (pb_start : Nat) (pb_map : Option Nat)
    (w : World) : World :=
  fail_pbmap ctx chan ib_bo ib_start ib_map pb_bo
    ((vunmap pb_map w).release (Res.vasmap pb_start))

/-- Label `fail_fence_map`: `pscnv_mem_free(fence_bo)`. -/
def fail_fence_map (ctx chan : Nat) (ib_bo : pscnv_bo) (ib_start : Nat)
    (ib_map : Option Nat) (pb_bo : pscnv_bo) (pb_start : Nat) (pb_map : Option Nat)
    (fence_bo : pscnv_bo) (w : World) : World :=
  fail_fifo_init ctx chan ib_bo ib_start ib_map pb_bo pb_start pb_map
    (w.release fence_bo.res)

/-- Store the ring cursors left by the engine-init hook into the context. -/
def gdev_ctx.setCursors (ctx : gdev_ctx) (c : fifo_cursors) : gdev_ctx :=
  { ctx with fifo := { ctx.fifo with ib_get := c.ib_get, ib_put := c.ib_put,
                                     pb_get := c.pb_get, pb_put := c.pb_put,
                                     pb_pos := c.pb_pos } }

/-- The last part of `gdev_ctx_new`, from `/* fences init. */` on: the fence
buffer, its mapping, the remaining assignments and `compute->init(ctx)`.
It returns the context as handed to the hook, the context as returned, and
the world. -/
def gdev_ctx_new_fence (B : Pscnv) (vas : gdev_vas) (ctx chan : Nat) (fifo : gdev_fifo)
    (w : World) : Option (gdev_ctx × gdev_ctx) × World :=
  -- fence_bo = pscnv_mem_alloc(drm, PAGE_SIZE, PSCNV_GEM_SYSRAM_SNOOP, 0, 0)
  if B.ok w.trace (Req.pscnv_mem_alloc B.PAGE_SIZE B.PSCNV_GEM_SYSRAM_SNOOP) = false then
    (none, fail_fifo_init ctx chan fifo.ib_bo fifo.ib_base fifo.ib_map
              fifo.pb_bo fifo.pb_base fifo.pb_map
              (w.refuse (Req.pscnv_mem_alloc B.PAGE_SIZE B.PSCNV_GEM_SYSRAM_SNOOP)))
  else
  let fence_bo : pscnv_bo :=
    { id := w.next, size := B.bo_size B.PAGE_SIZE, flags := B.PSCNV_GEM_SYSRAM_SNOOP }
  let w1 := w.acquire fence_bo.res
  -- pscnv_vspace_map(vspace, fence_bo, ..., &fence_mm)
  if B.ok w1.trace (Req.pscnv_vspace_map fence_bo.id) = false then
    (none, fail_fence_map ctx chan fifo.ib_bo fifo.ib_base fifo.ib_map
              fifo.pb_bo fifo.pb_base fifo.pb_map fence_bo
              (w1.refuse (Req.pscnv_vspace_map fence_bo.id)))
  else
  let fence_start := B.mm_start fence_bo.id
  let w2 := w1.acquire (Res.vasmap fence_start)
  -- ctx->fence.map = kmap(fence_bo->pages[0])
  let mw := kmap fence_bo w2
  let fence : gdev_fence :=
    { bo := fence_bo, map := mw.1, addr := fence_start,
      sequence := List.replicate B.GDEV_FENCE_COUNT 0 }
  let c : gdev_ctx := { id := ctx, fifo := fifo, fence := fence, vas := vas, pctx := chan }
  -- compute->init(ctx); return ctx
  (some (c, c.setCursors (B.compute_init c)), mw.2.call Ev.compute_init)

/-- The part of `gdev_ctx_new` from `/* FIFO init. */` on: `chan_init_ib` and
the switch on the chipset that looks up the command queue registers. -/
def gdev_ctx_new_fifo (B : Pscnv) (chipset : Nat) (vas : gdev_vas) (ctx chan : Nat)
    (ib_order : Nat) (ib_bo : pscnv_bo) (ib_start : Nat) (ib_map : Option Nat)
    (pb_order : Nat) (pb_bo : pscnv_bo) (pb_start : Nat) (pb_map : Option Nat)
    (w : World) : Option (gdev_ctx × gdev_ctx) × World :=
  -- priv->fifo->chan_init_ib(chan, 0, 0, 1, ib_base, ib_order)
  if B.ok w.trace (Req.chan_init_ib chan) = false then
    (none, fail_fifo_init ctx chan ib_bo ib_start ib_map pb_bo pb_start pb_map
              (w.refuse (Req.chan_init_ib chan)))
  else
  let w1 := w.call (Ev.chan_init_ib chan ib_start ib_order)
  -- switch (chipset & 0xf0)
  if chipset &&& 0xf0 = 0xc0 then
    -- case 0xc0: ctx->fifo.regs = nvc0_fifo_ctrl_ptr(drm, chan)
    let w2 := w1.call (Ev.nvc0_fifo_ctrl_ptr chan)
    let fifo : gdev_fifo :=
      { ib_order := ib_order, ib_bo := ib_bo, ib_map := ib_map, ib_base := ib_start,
        ib_mask := (1 <<< ib_order) - 1, ib_put := 0, ib_get := 0,
        pb_order := pb_order, pb_bo := pb_bo, pb_map := pb_map, pb_base := pb_start,
        pb_mask := (1 <<< pb_order) - 1, pb_size := 1 <<< pb_order,
        pb_pos := 0, pb_put := 0, pb_get := 0,
        regs := B.nvc0_fifo_ctrl_ptr chan }
    gdev_ctx_new_fence B vas ctx chan fifo w2
  else
    -- default: goto fail_fifo_reg
    (none, fail_fifo_init ctx chan ib_bo ib_start ib_map pb_bo pb_start pb_map w1)

/-- The part of `gdev_ctx_new` from `/* FIFO push buffer setup. */` on. -/
def gdev_ctx_new_pb (B : Pscnv) (chipset : Nat) (vas : gdev_vas) (ctx chan : Nat)
    (ib_order : Nat) (ib_bo : pscnv_bo) (ib_start : Nat) (ib_map : Option Nat)
    (w : World) : Option (gdev_ctx × gdev_ctx) × World :=
  let pb_order := 20
  -- pb_bo = pscnv_mem_alloc(drm, 1 << pb_order, PSCNV_GEM_SYSRAM_SNOOP, 0, 0)
  if B.ok w.trace (Req.pscnv_mem_alloc (1 <<< pb_order) B.PSCNV_GEM_SYSRAM_SNOOP) = false then
    (none, fail_pb ctx chan ib_bo ib_start ib_map
              (w.refuse (Req.pscnv_mem_alloc (1 <<< pb_order) B.PSCNV_GEM_SYSRAM_SNOOP)))
  else
  let pb_bo : pscnv_bo :=
    { id := w.next, size := B.bo_size (1 <<< pb_order), flags := B.PSCNV_GEM_SYSRAM_SNOOP }
  let w1 := w.acquire pb_bo.res
  -- pscnv_vspace_map(vspace, pb_bo, ..., &pb_mm)
  if B.ok w1.trace (Req.pscnv_vspace_map pb_bo.id) = false then
    (none, fail_pbmap ctx chan ib_bo ib_start ib_map pb_bo
              (w1.refuse (Req.pscnv_vspace_map pb_bo.id)))
  else
  let pb_start := B.mm_start pb_bo.id
  let w2 := w1.acquire (Res.vasmap pb_start)
  -- ctx->fifo.pb_map = vmap(pb_bo->pages, ...)
  let mw := B.vmap pb_bo w2
  gdev_ctx_new_fifo B chipset vas ctx chan ib_order ib_bo ib_start ib_map
    pb_order pb_bo pb_start mw.1 mw.2

/-- The whole of `gdev_ctx_new(gdev, vas)`, keeping both the context as handed
to `compute->init` and the context as returned; `chipset` is `priv->chipset`. -/
def gdev_ctx_new_run (B : Pscnv) (chipset : Nat) (vas : gdev_vas) (w : World) :
    Option (gdev_ctx × gdev_ctx) × World :=
  -- ctx = kzalloc(sizeof(*ctx), GFP_KERNEL)
  if B.ok w.trace Req.kzalloc = false then (none, fail_ctx (w.refuse Req.kzalloc)) else
  let ctx := w.next
  let w1 := w.acquire (Res.record ctx)
  -- chan = pscnv_chan_new(drm, vspace, 0)
  if B.ok w1.trace Req.pscnv_chan_new = false then
    (none, fail_chan ctx (w1.refuse Req.pscnv_chan_new))
  else
  let chan := w1.next
  let w2 := w1.acquire (Res.chan chan)
  let ib_order := 9
  -- ib_bo = pscnv_mem_alloc(drm, 8 << ib_order, PSCNV_GEM_SYSRAM_SNOOP, 0, 0)
  if B.ok w2.trace (Req.pscnv_mem_alloc (8 <<< ib_order) B.PSCNV_GEM_SYSRAM_SNOOP) = false then
    (none, fail_ib ctx chan
              (w2.refuse (Req.pscnv_mem_alloc (8 <<< ib_order) B.PSCNV_GEM_SYSRAM_SNOOP)))
  else
  let ib_bo : pscnv_bo :=
    { id := w2.next, size := B.bo_size (8 <<< ib_order), flags := B.PSCNV_GEM_SYSRAM_SNOOP }
  let w3 := w2.acquire ib_bo.res
  -- pscnv_vspace_map(vspace, ib_bo, ..., &ib_mm)
  if B.ok w3.trace (Req.pscnv_vspace_map ib_bo.id) = false then
    (none, fail_ibmap ctx chan ib_bo (w3.refuse (Req.pscnv_vspace_map ib_bo.id)))
  else
  let ib_start := B.mm_start ib_bo.id
  let w4 := w3.acquire (Res.vasmap ib_start)
  -- ctx->fifo.ib_map = vmap(ib_bo->pages, ...)
  let mw := B.vmap ib_bo w4
  gdev_ctx_new_pb B chipset vas ctx chan ib_order ib_bo ib_start mw.1 mw.2

/-- The body of `gdev_ctx_new(gdev, vas)`: the returned context, or `none` for
`NULL`. -/
def gdev_ctx_new (B : Pscnv) (chipset : Nat) (vas : gdev_vas) (w : World) :
    Option gdev_ctx × World :=
  let r := gdev_ctx_new_run B chipset vas w
  (r.1.map Prod.snd, r.2)

/-- The body of `gdev_ctx_free(ctx)`. -/
def gdev_ctx_free (ctx : gdev_ctx) (w : World) : World :=
  let w1 := kunmap ctx.fence.bo.id w
  let w2 := w1.release (Res.vasmap ctx.fence.addr)
  let w3 := w2.release ctx.fence.bo.res
  let w4 := vunmap ctx.fifo.pb_map w3
  let w5 := w4.release (Res.vasmap ctx.fifo.pb_base)
  let w6 := w5.release ctx.fifo.pb_bo.res
  let w7 := vunmap ctx.fifo.ib_map w6
  let w8 := w7.release (Res.vasmap ctx.fifo.ib_base)
  let w9 := w8.release ctx.fifo.ib_bo.res
  let w10 := w9.release (Res.chan ctx.pctx)
  w10.release (Res.record ctx.id)

/-! ### Queries (kernel) -/

/-- The constant `GDEV_NVIDIA_QUERY_MP_COUNT` from `common/gdev_nvidia_def.h`. -/
def GDEV_NVIDIA_QUERY_MP_COUNT : Nat := 100

/-- The Linux error number `EINVAL`. -/
def EINVAL : Int := 22

/-- What `gdev_query` needs from PSCNV: the parameter lookup and the
identifiers that the headers of the source tree leave undefined. -/
structure PscnvParams where
  /-- the lookup `pscnv_ioctl_getparam`: the value of a parameter, `none` when the lookup
  fails (the `value` field is then left as it was) -/
  getparam : Nat → Option Nat
  PSCNV_GETPARAM_MP_COUNT : Nat
  PSCNV_GETPARAM_FB_SIZE : Nat
  PSCNV_GETPARAM_AGP_SIZE : Nat
  PSCNV_GETPARAM_CHIPSET_ID : Nat
  GDEV_NVIDIA_QUERY_DEVICE_MEM_SIZE : Nat
  GDEV_NVIDIA_QUERY_DMA_MEM_SIZE : Nat
  GDEV_NVIDIA_QUERY_CHIPSET : Nat

/-- The field `getparam.value` after `pscnv_ioctl_getparam(drm, &getparam, NULL)`;
`uninit` is what the uninitialised local held before. -/
def PscnvParams.value (Q : PscnvParams) (param uninit : Nat) : Nat :=
  match Q.getparam param with
  | some v => v
  | none => uninit

/-- The body of `gdev_query(gdev, type, result)`: the return value and the
value stored through `result` (`none`: nothing is stored). -/
def gdev_query (Q : PscnvParams) (type : Nat) (uninit : Nat) : Int × Option Nat :=
  if type = GDEV_NVIDIA_QUERY_MP_COUNT then
    (0, some (Q.value Q.PSCNV_GETPARAM_MP_COUNT uninit))
  else if type = Q.GDEV_NVIDIA_QUERY_DEVICE_MEM_SIZE then
    (0, some (Q.value Q.PSCNV_GETPARAM_FB_SIZE uninit))
  else if type = Q.GDEV_NVIDIA_QUERY_DMA_MEM_SIZE then
    (0, some (Q.value Q.PSCNV_GETPARAM_AGP_SIZE uninit))
  else if type = Q.GDEV_NVIDIA_QUERY_CHIPSET then
    (0, some (Q.value Q.PSCNV_GETPARAM_CHIPSET_ID uninit))
  else
    (-EINVAL, none)

/-! ## The user-space adapter: `lib/user/nvrm/nvrm_gdev.c` -/

namespace User

/-- The NVRM backend: oracle, helper functions and the constants that the
headers of the source tree leave undefined. -/
structure Nvrm where
  /-- does the fallible call succeed, given the calls so far? -/
  ok : List Ev → Req → Bool
  /-- the value of `nvrm_bo_gpu_addr(bo)` -/
  gpu_addr : Nat → Nat
  /-- the result of `nvrm_device_get_chipset`: major and minor, `none` when it fails -/
  get_chipset : Option (Nat × Nat)
  GDEV_FENCE_BUF_SIZE : Nat
  GDEV_MEM_MAPPABLE_LIMIT : Nat
  GDEV_QUERY_DEVICE_MEM_SIZE : Nat
  GDEV_QUERY_DMA_MEM_SIZE : Nat
  GDEV_QUERY_CHIPSET : Nat

/-- A libnvrm buffer object: its handle, what it was created with, and the
host mapping the library remembers for it. -/
structure nvrm_bo where
  id : Nat
  size : Nat
  sysram : Nat
  mmap : Option Nat
  deriving DecidableEq, Repr

/-- The resource an `nvrm_bo` stands for. -/
def nvrm_bo.res (bo : nvrm_bo) : Res := Res.bo bo.id bo.size bo.sysram

/-- A libnvrm channel: its handle, whether an engine object hangs off it, and
the register mapping the library remembers for it. -/
structure nvrm_channel where
  id : Nat
  eng : Bool
  regs : Option Nat
  deriving DecidableEq, Repr

/-- The call `nvrm_bo_create(nvas, size, sysram)`. -/
def nvrm_bo_create (N : Nvrm) (size sysram : Nat) (w : World) : Option nvrm_bo × World :=
  if N.ok w.trace (Req.nvrm_bo_create size sysram) then
    (some { id := w.next, size := size, sysram := sysram, mmap := none },
     w.acquire (Res.bo w.next size sysram))
  else (none, w.refuse (Req.nvrm_bo_create size sysram))

/-- The call `nvrm_bo_host_map(bo)`: the pointer (`none` for `NULL`), the buffer object
as the library leaves it, and the world. -/
def nvrm_bo_host_map (N : Nvrm) (bo : nvrm_bo) (w : World) :
    Option Nat × nvrm_bo × World :=
  if N.ok w.trace (Req.nvrm_bo_host_map bo.id) then
    (some bo.id, { bo with mmap := some bo.id }, w.acquire (Res.hostmap bo.id))
  else (none, bo, w.refuse (Req.nvrm_bo_host_map bo.id))

/-- Modelled from the spec: libnvrm's `nvrm_bo_destroy` is not in the source
tree.  Following the spec's `unmap-before-free per object`, it drops the host
mapping the buffer still has, then the buffer. -/
def nvrm_bo_destroy (bo : nvrm_bo) (w : World) : World :=
  let w1 :=
    match bo.mmap with
    | some p => w.release (Res.hostmap p)
    | none => w
  w1.release bo.res

/-- Modelled from the spec: libnvrm's `nvrm_channel_destroy` is not in the
source tree.  It drops what hangs off the channel (register mapping, engine
object), then the channel. -/
def nvrm_channel_destroy (chan : nvrm_channel) (w : World) : World :=
  let w1 :=
    match chan.regs with
    | some _ => w.release (Res.regs chan.id)
    | none => w
  let w2 := if chan.eng then w1.release (Res.eng chan.id) else w1
  w2.release (Res.chan chan.id)

/-- The user-space adapter's memory object (`struct gdev_mem`). -/
structure gdev_mem where
  /-- the `malloc` record holding the object -/
  id : Nat
  bo : nvrm_bo
  addr : Nat
  size : Nat
  /-- the host pointer; `none` is `NULL` -/
  map : Option Nat
  deriving DecidableEq, Repr

/-- The body of `__gdev_raw_mem_alloc(vas, size, sysram, mappable)`. -/
def __gdev_raw_mem_alloc (N : Nvrm) (size sysram mappable : Nat) (w : World) :
    Option gdev_mem × World :=
  -- mem = malloc(sizeof(*mem))
  if N.ok w.trace Req.malloc = false then (none, w.refuse Req.malloc) else
  let mem := w.next
  let w1 := w.acquire (Res.record mem)
  -- bo = nvrm_bo_create(nvas, size, sysram)
  match nvrm_bo_create N size sysram w1 with
  | (none, w2) =>
    -- fail_bo: free(mem)
    (none, w2.release (Res.record mem))
  | (some bo, w2) =>
    let addr := N.gpu_addr bo.id
    if mappable ≠ 0 then
      let r := nvrm_bo_host_map N bo w2
      (some { id := mem, bo := r.2.1, addr := addr, size := size, map := r.1 }, r.2.2)
    else
      (some { id := mem, bo := bo, addr := addr, size := size, map := none }, w2)

/-- The body of `gdev_raw_mem_alloc(vas, size)`. -/
def gdev_raw_mem_alloc (N : Nvrm) (size : Nat) (w : World) : Option gdev_mem × World :=
  let mappable := if size ≤ N.GDEV_MEM_MAPPABLE_LIMIT then 1 else 0
  __gdev_raw_mem_alloc N size 0 mappable w

/-- The body of `gdev_raw_mem_alloc_dma(vas, size)`. -/
def gdev_raw_mem_alloc_dma (N : Nvrm) (size : Nat) (w : World) : Option gdev_mem × World :=
  __gdev_raw_mem_alloc N size 1 1 w

/-- The body of `gdev_raw_mem_free(mem)`. -/
def gdev_raw_mem_free (mem : gdev_mem) (w : World) : World :=
  (nvrm_bo_destroy mem.bo w).release (Res.record mem.id)

/-- The body of `gdev_raw_query(gdev, type, result)`: the return value and the
value stored through `result` (`none`: nothing is stored). -/
def gdev_raw_query (N : Nvrm) (type : Nat) : Int × Option Nat :=
  if type = GDEV_NVIDIA_QUERY_MP_COUNT then
    -- *result = 4; return 0;
    (0, some 4)
  else if type = N.GDEV_QUERY_DEVICE_MEM_SIZE then
    -- goto fail
    (-EINVAL, none)
  else if type = N.GDEV_QUERY_DMA_MEM_SIZE then
    -- goto fail
    (-EINVAL, none)
  else if type = N.GDEV_QUERY_CHIPSET then
    match N.get_chipset with
    | none => (-EINVAL, none)
    | some (chip_major, chip_minor) => (0, some (chip_major ||| chip_minor))
  else
    (-EINVAL, none)

/-! ### Context creation and destruction (user space) -/

/-- The FIFO part of the user-space adapter's context. -/
structure gdev_fifo where
  ib_order : Nat
  ib_bo : nvrm_bo
  ib_map : Option Nat
  ib_base : Nat
  ib_mask : Nat
  ib_put : Nat
  ib_get : Nat
  pb_order : Nat
  pb_bo : nvrm_bo
  pb_map : Option Nat
  pb_base : Nat
  pb_mask : Nat
  pb_size : Nat
  pb_pos : Nat
  pb_put : Nat
  pb_get : Nat
  regs : Option Nat
  deriving DecidableEq, Repr

/-- The fence part of the user-space adapter's context. -/
structure gdev_fence where
  bo : nvrm_bo
  map : Option Nat
  addr : Nat
  seq : Nat
  deriving DecidableEq, Repr

/-- The notification buffer of the user-space adapter's context. -/
structure gdev_notify where
  bo : nvrm_bo
  addr : Nat
  deriving DecidableEq, Repr

/-- The user-space adapter's context (`struct gdev_ctx`). -/
structure gdev_ctx where
  /-- the `malloc` record holding the context -/
  id : Nat
  fifo : gdev_fifo
  fence : gdev_fence
  notify : gdev_notify
  pctx : nvrm_channel
  deriving DecidableEq, Repr

/-- The channel class chosen from the chipset at the head of
`gdev_raw_ctx_new`. -/
def cls (chipset : Nat) : Nat :=
  if chipset < 0x80 then 0x506f
  else if chipset < 0xc0 then 0x826f
  else if chipset < 0xe0 then 0x906f
  else 0xa06f

/-- The compute class chosen from the chipset at the head of
`gdev_raw_ctx_new`. -/
def ccls (chipset : Nat) : Nat :=
  if chipset < 0x80 then 0x50c0
  else if chipset < 0xc0 then 0x50c0
  else if chipset < 0xe0 then 0x90c0
  else 0xa0c0

/-- Label `fail_ctx` of `gdev_raw_ctx_new`. -/
def fail_ctx (w : World) : World := w

/-- Label `fail_ib`: `free(ctx)`. -/
def fail_ib (ctx : Nat) (w : World) : World :=
  fail_ctx (w.release (Res.record ctx))

/-- Label `fail_pb`: `nvrm_bo_destroy(ctx->fifo.ib_bo)`. -/
def fail_pb (ctx : Nat) (ib_bo : nvrm_bo) (w : World) : World :=
  fail_ib ctx (nvrm_bo_destroy ib_bo w)

/-- Label `fail_chan`: `nvrm_bo_destroy(ctx->fifo.pb_bo)`. -/
def fail_chan (ctx : Nat) (ib_bo pb_bo : nvrm_bo) (w : World) : World :=
  fail_pb ctx ib_bo (nvrm_bo_destroy pb_bo w)

/-- Labels `fail_fence_alloc` and `fail_eng` (one place):
`nvrm_channel_destroy(chan)`. -/
def fail_eng (ctx : Nat) (ib_bo pb_bo : nvrm_bo) (chan : nvrm_channel) (w : World) :
    World :=
  fail_chan ctx ib_bo pb_bo (nvrm_channel_destroy chan w)

/-- Label `fail_notify_alloc`: `nvrm_bo_destroy(ctx->fence.bo)`. -/
def fail_notify_alloc (ctx : Nat) (ib_bo pb_bo : nvrm_bo) (chan : nvrm_channel)
    (fence_bo : nvrm_bo) (w : World) : World :=
  fail_eng ctx ib_bo pb_bo chan (nvrm_bo_destroy fence_bo w)

/-- The call `nvrm_eng_create(chan, NVRM_FIFO_ENG_GRAPH, ccls)`; the request is
identified by channel and class. -/
def nvrm_eng_create (N : Nvrm) (chan : nvrm_channel) (ccls : Nat) (w : World) :
    Option nvrm_channel × World :=
  if N.ok w.trace (Req.nvrm_eng_create chan.id ccls) then
    (some { chan with eng := true }, w.acquire (Res.eng chan.id))
  else (none, w.refuse (Req.nvrm_eng_create chan.id ccls))

/-- The call `nvrm_channel_host_map_regs(chan)`: the pointer (`none` for `NULL`), the
channel as the library leaves it, and the world. -/
def nvrm_channel_host_map_regs (N : Nvrm) (chan : nvrm_channel) (w : World) :
    Option Nat × nvrm_channel × World :=
  if N.ok w.trace (Req.nvrm_channel_host_map_regs chan.id) then
    (some chan.id, { chan with regs := some chan.id }, w.acquire (Res.regs chan.id))
  else (none, chan, w.refuse (Req.nvrm_channel_host_map_regs chan.id))

/-- The last part of `gdev_raw_ctx_new`, from `/* interrupt buffer. */` on. -/
def gdev_raw_ctx_new_notify (N : Nvrm) (ctx : Nat) (fifo : gdev_fifo) (chan : nvrm_channel)
    (fence : gdev_fence) (w : World) : Option gdev_ctx × World :=
  -- ctx->notify.bo = nvrm_bo_create(nvas, 64, 0)
  match nvrm_bo_create N 64 0 w with
  | (none, w1) => (none, fail_notify_alloc ctx fifo.ib_bo fifo.pb_bo chan fence.bo w1)
  | (some notify_bo, w1) =>
    (some { id := ctx, fifo := fifo, fence := fence,
            notify := { bo := notify_bo, addr := N.gpu_addr notify_bo.id },
            pctx := chan }, w1)

/-- The part of `gdev_raw_ctx_new` from `/* fence buffer. */` on. -/
def gdev_raw_ctx_new_fence (N : Nvrm) (ctx : Nat) (fifo : gdev_fifo) (chan : nvrm_channel)
    (w : World) : Option gdev_ctx × World :=
  -- ctx->fence.bo = nvrm_bo_create(nvas, GDEV_FENCE_BUF_SIZE, 1)
  match nvrm_bo_create N N.GDEV_FENCE_BUF_SIZE 1 w with
  | (none, w1) => (none, fail_eng ctx fifo.ib_bo fifo.pb_bo chan w1)
  | (some fence_bo, w1) =>
    -- ctx->fence.map = nvrm_bo_host_map(ctx->fence.bo)
    let fm := nvrm_bo_host_map N fence_bo w1
    let fence : gdev_fence :=
      { bo := fm.2.1, map := fm.1, addr := N.gpu_addr fence_bo.id, seq := 0 }
    gdev_raw_ctx_new_notify N ctx fifo chan fence fm.2.2

/-- The part of `gdev_raw_ctx_new` from `/* FIFO init */` on: the channel, the
engine object and the command queue registers. -/
def gdev_raw_ctx_new_chan (N : Nvrm) (chipset : Nat) (ctx : Nat) (fifo : gdev_fifo)
    (w : World) : Option gdev_ctx × World :=
  -- chan = nvrm_channel_create_ib(nvas, cls, ctx->fifo.ib_bo)
  if N.ok w.trace (Req.nvrm_channel_create_ib (cls chipset) fifo.ib_bo.id) = false then
    (none, fail_chan ctx fifo.ib_bo fifo.pb_bo
              (w.refuse (Req.nvrm_channel_create_ib (cls chipset) fifo.ib_bo.id)))
  else
  let chan0 : nvrm_channel := { id := w.next, eng := false, regs := none }
  let w1 := w.acquire (Res.chan chan0.id)
  -- nvrm_eng_create(chan, NVRM_FIFO_ENG_GRAPH, ccls)
  match nvrm_eng_create N chan0 (ccls chipset) w1 with
  | (none, w2) => (none, fail_eng ctx fifo.ib_bo fifo.pb_bo chan0 w2)
  | (some chan1, w2) =>
    -- ctx->fifo.regs = nvrm_channel_host_map_regs(chan)
    let rr := nvrm_channel_host_map_regs N chan1 w2
    gdev_raw_ctx_new_fence N ctx { fifo with regs := rr.1 } rr.2.1 rr.2.2

/-- The part of `gdev_raw_ctx_new` from `/* FIFO push buffer setup. */` on. -/
def gdev_raw_ctx_new_pb (N : Nvrm) (chipset : Nat) (ctx : Nat) (ib_order : Nat)
    (ib_bo : nvrm_bo) (ib_map : Option Nat) (w : World) : Option gdev_ctx × World :=
  let pb_order := 18
  let pb_size := 1 <<< pb_order
  -- ctx->fifo.pb_bo = nvrm_bo_create(nvas, ctx->fifo.pb_size, 1)
  match nvrm_bo_create N pb_size 1 w with
  | (none, w1) => (none, fail_pb ctx ib_bo w1)
  | (some pb_bo, w1) =>
    -- ctx->fifo.pb_map = nvrm_bo_host_map(ctx->fifo.pb_bo)
    let pm := nvrm_bo_host_map N pb_bo w1
    let fifo : gdev_fifo :=
      { ib_order := ib_order, ib_bo := ib_bo, ib_map := ib_map,
        ib_base := N.gpu_addr ib_bo.id, ib_mask := (1 <<< ib_order) - 1,
        ib_put := 0, ib_get := 0,
        pb_order := pb_order, pb_bo := pm.2.1, pb_map := pm.1,
        pb_base := N.gpu_addr pb_bo.id, pb_mask := (1 <<< pb_order) - 1,
        pb_size := pb_size, pb_pos := 0, pb_put := 0, pb_get := 0,
        regs := none }
    gdev_raw_ctx_new_chan N chipset ctx fifo pm.2.2

/-- The body of `gdev_raw_ctx_new(gdev, vas)`; `chipset` is `gdev->chipset`. -/
def gdev_raw_ctx_new (N : Nvrm) (chipset : Nat) (w : World) : Option gdev_ctx × World :=
  -- ctx = malloc(sizeof(*ctx))
  if N.ok w.trace Req.malloc = false then (none, fail_ctx (w.refuse Req.malloc)) else
  let ctx := w.next
  let w1 := w.acquire (Res.record ctx)
  let ib_order := 10
  -- ctx->fifo.ib_bo = nvrm_bo_create(nvas, 8 << ctx->fifo.ib_order, 1)
  match nvrm_bo_create N (8 <<< ib_order) 1 w1 with
  | (none, w2) => (none, fail_ib ctx w2)
  | (some ib_bo, w2) =>
    -- ctx->fifo.ib_map = nvrm_bo_host_map(ctx->fifo.ib_bo)
    let im := nvrm_bo_host_map N ib_bo w2
    gdev_raw_ctx_new_pb N chipset ctx ib_order im.2.1 im.1 im.2.2

/-- The body of `gdev_raw_ctx_free(ctx)`. -/
def gdev_raw_ctx_free (ctx : gdev_ctx) (w : World) : World :=
  let w1 := nvrm_bo_destroy ctx.fence.bo w
  let w2 := nvrm_bo_destroy ctx.notify.bo w1
  let w3 := nvrm_channel_destroy ctx.pctx w2
  let w4 := nvrm_bo_destroy ctx.fifo.pb_bo w3
  let w5 := nvrm_bo_destroy ctx.fifo.ib_bo w4
  w5.release (Res.record ctx.id)

/-- An NVRM backend on which every call succeeds. -/
def nvrmOk : Nvrm where
  ok := fun _ _ => true
  gpu_addr := fun bo => 0x100000 * (bo + 1)
  get_chipset := some (0xc0, 0x08)
  GDEV_FENCE_BUF_SIZE := 0x10000
  GDEV_MEM_MAPPABLE_LIMIT := 0x10000000
  GDEV_QUERY_DEVICE_MEM_SIZE := 1
  GDEV_QUERY_DMA_MEM_SIZE := 2
  GDEV_QUERY_CHIPSET := 3

end User

/-- Records, channels and buffers: the objects whose release the adapter asks
for by name (mappings, engines and register windows hang off them). -/
def Res.isOwner : Res → Bool
  | Res.record _ => true
  | Res.chan _ => true
  | Res.bo _ _ _ => true
  | _ => false

/-- A PSCNV backend on which every call succeeds, with a 4 KiB page, buffers
recorded at their requested size and mappings placed at `0x1000 * (bo + 1)`. -/
def pscnvOk : Pscnv where
  ok := fun _ _ => true
  mm_start := fun bo => 0x1000 * (bo + 1)
  bo_size := fun size => size
  nvc0_fifo_ctrl_ptr := fun chan => 0xc0000 + chan
  PAGE_SIZE := 4096
  PSCNV_GEM_VRAM_SMALL := 0x00
  PSCNV_GEM_SYSRAM_SNOOP := 0x20
  GDEV_MEM_DEVICE := 0
  GDEV_MEM_DMA := 1
  GDEV_FENCE_COUNT := 4
  compute_init := fun ctx =>
    { ib_get := ctx.fifo.ib_get, ib_put := ctx.fifo.ib_put, pb_get := ctx.fifo.pb_get,
      pb_put := ctx.fifo.pb_put, pb_pos := ctx.fifo.pb_pos }

/-- A device with nothing allocated. -/
def gdev0 : gdev_device := { users := 1, mem_used := 0, chipset := 0xc0 }

/-- The mapping a `vmap` result stands for: none for `NULL`. -/
def vmapStack (o : Option Nat) : List Res :=
  match o with
  | some p => [Res.vmap p]
  | none => []

/-- What `gdev_ctx_new` holds once the indirect buffer is set up, newest
first. -/
def ibStack (ctx chan : Nat) (ib_bo : pscnv_bo) (ib_start : Nat) (ib_map : Option Nat) :
    List Res :=
  vmapStack ib_map ++ [Res.vasmap ib_start, ib_bo.res, Res.chan chan, Res.record ctx]

/-- What `gdev_ctx_new` holds once the push buffer is set up, newest first. -/
def pbStack (ctx chan : Nat) (ib_bo : pscnv_bo) (ib_start : Nat) (ib_map : Option Nat)
    (pb_bo : pscnv_bo) (pb_start : Nat) (pb_map : Option Nat) : List Res :=
  vmapStack pb_map ++
    (Res.vasmap pb_start :: pb_bo.res :: ibStack ctx chan ib_bo ib_start ib_map)

/-- The backend resources a kernel context holds, newest first. -/
def gdev_ctx.stack (c : gdev_ctx) : List Res :=
  Res.kmap c.fence.bo.id :: Res.vasmap c.fence.addr :: c.fence.bo.res ::
    pbStack c.id c.pctx c.fifo.ib_bo c.fifo.ib_base c.fifo.ib_map
      c.fifo.pb_bo c.fifo.pb_base c.fifo.pb_map

/-- The host mapping libnvrm remembers for a buffer: none for `NULL`. -/
def hostStack (o : Option Nat) : List Res :=
  match o with
  | some p => [Res.hostmap p]
  | none => []

/-- What a libnvrm buffer object holds, newest first. -/
def User.nvrm_bo.stack (bo : User.nvrm_bo) : List Res := hostStack bo.mmap ++ [bo.res]

/-- The register mapping libnvrm remembers for a channel. -/
def regsStack (chan : User.nvrm_channel) : List Res :=
  match chan.regs with
  | some _ => [Res.regs chan.id]
  | none => []

/-- The engine object hanging off a channel. -/
def engStack (chan : User.nvrm_channel) : List Res :=
  if chan.eng then [Res.eng chan.id] else []

/-- What a libnvrm channel holds, newest first. -/
def User.nvrm_channel.stack (chan : User.nvrm_channel) : List Res :=
  regsStack chan ++ (engStack chan ++ [Res.chan chan.id])

/-- The backend resources a user-space context holds, newest first. -/
def User.gdev_ctx.stack (c : User.gdev_ctx) : List Res :=
  c.notify.bo.stack ++ (c.fence.bo.stack ++ (c.pctx.stack ++
    (c.fifo.pb_bo.stack ++ (c.fifo.ib_bo.stack ++ [Res.record c.id]))))

/-- While a multi-step creation is under way: since `w0` the resources in
`stack` (newest first) were obtained and nothing was given back, every logged
event satisfies `P`, and only host mappings were refused. -/
def Holding (P : Ev → Prop) (w0 w : World) (stack : List Res) : Prop :=
  w.live = stack ++ w0.live ∧
  ∃ evs, w.trace = w0.trace ++ evs ∧ acqs evs = stack.reverse ∧ rels evs = [] ∧
    (∀ e ∈ evs, P e) ∧ ∀ q, Ev.refused q ∈ evs → q.isHostMap = true

/-- While a failed creation is being rolled back: the resources in `stack`
(newest first) are still to be given back, what was given back so far followed
by `stack` is the reverse of what was obtained, every logged event satisfies
`P`, and the failure is due to `R` or to a refused call that is not a host
mapping. -/
def Unwinding (P : Ev → Prop) (R : Prop) (w0 w : World) (stack : List Res) : Prop :=
  w.live = stack ++ w0.live ∧
  ∃ evs, w.trace = w0.trace ++ evs ∧ rels evs ++ stack = (acqs evs).reverse ∧
    (∀ e ∈ evs, P e) ∧ (R ∨ ∃ q, Ev.refused q ∈ evs ∧ q.isHostMap = false)

/-- Acquisitions, releases and refusals satisfy `P`. -/
def Benign (P : Ev → Prop) : Prop :=
  (∀ r, P (Ev.acq r)) ∧ (∀ r, P (Ev.rel r)) ∧ ∀ q, P (Ev.refused q)

/-- The events `gdev_ctx_new` may log on a given chipset before it returns:
`compute->init` is not among them, and `nvc0_fifo_ctrl_ptr` only on an nvc0
chipset. -/
def ctxNewEv (chipset : Nat) (e : Ev) : Prop :=
  e ≠ Ev.compute_init ∧ (chipset &&& 0xf0 ≠ 0xc0 → ∀ c, e ≠ Ev.nvc0_fifo_ctrl_ptr c)

/-- What a run of `gdev_raw_ctx_new` that started in world `w0` has achieved
when it ends with result `r`: a failed run has rolled everything back, a
successful one holds exactly the resources of the context it returns. -/
def RawCtxNewOutcome (w0 : World) (r : Option User.gdev_ctx × World) : Prop :=
  match r with
  | (none, w') => Unwinding (fun _ => True) False w0 w' []
  | (some c, w') => Holding (fun _ => True) w0 w' c.stack

/-- The fields `gdev_raw_ctx_new` has given the context it returns. -/
def RawCtxShape (ib_order pb_order ib_size : Nat) (c : User.gdev_ctx) : Prop :=
  c.fifo.ib_order = ib_order ∧ c.fifo.pb_order = pb_order ∧
  c.fifo.ib_mask = (1 <<< ib_order) - 1 ∧ c.fifo.pb_size = 1 <<< pb_order ∧
  c.fifo.pb_mask = (1 <<< pb_order) - 1 ∧
  c.fifo.ib_bo.size = ib_size ∧ c.fifo.pb_bo.size = 1 <<< pb_order ∧
  c.fifo.ib_get = 0 ∧ c.fifo.ib_put = 0 ∧
  c.fifo.pb_get = 0 ∧ c.fifo.pb_put = 0 ∧ c.fifo.pb_pos = 0 ∧
  c.fence.seq = 0 ∧ c.notify.bo.mmap = none

/-- What a run of `gdev_ctx_new` that started in world `w0` has achieved when
it ends with result `r`: a failed run has rolled everything back; a successful
one ran on an nvc0 chipset, holds exactly the resources of the context it
built, and finished by calling `compute->init` on that context. -/
def CtxNewOutcome (B : Pscnv) (chipset : Nat) (w0 : World)
    (r : Option (gdev_ctx × gdev_ctx) × World) : Prop :=
  match r with
  | (none, w') => Unwinding (ctxNewEv chipset) (chipset &&& 0xf0 ≠ 0xc0) w0 w' []
  | (some (c0, c), w') =>
    chipset &&& 0xf0 = 0xc0 ∧ c = c0.setCursors (B.compute_init c0) ∧
    ∃ w1, Holding (ctxNewEv chipset) w0 w1 c0.stack ∧ w' = w1.call Ev.compute_init

/-- The fields `gdev_ctx_new` has given the context by the time it calls
`compute->init`, for given ring orders, recorded buffer sizes and channel. -/
def CtxShape (B : Pscnv) (ib_order pb_order ib_size pb_size chan : Nat) (c0 : gdev_ctx) :
    Prop :=
  c0.fifo.ib_order = ib_order ∧ c0.fifo.pb_order = pb_order ∧
  c0.fifo.ib_mask = (1 <<< ib_order) - 1 ∧ c0.fifo.pb_size = 1 <<< pb_order ∧
  c0.fifo.pb_mask = (1 <<< pb_order) - 1 ∧
  c0.fifo.ib_bo.size = ib_size ∧ c0.fifo.pb_bo.size = pb_size ∧
  c0.fifo.ib_get = 0 ∧ c0.fifo.ib_put = 0 ∧
  c0.fifo.pb_get = 0 ∧ c0.fifo.pb_put = 0 ∧ c0.fifo.pb_pos = 0 ∧
  c0.fence.sequence = List.replicate B.GDEV_FENCE_COUNT 0 ∧
  c0.fifo.regs = B.nvc0_fifo_ctrl_ptr chan ∧ c0.pctx = chan

/-- The events logged between world `w0` and a later world `w`. -/
def World.since (w0 w : World) : List Ev := w.trace.drop w0.trace.length

/-- A PSCNV backend whose buffer allocator refuses every request above
`DEVICE_MEM_SIZE = 2^30` bytes and grants everything else. -/
def pscnvLimited : Pscnv :=
  { pscnvOk with
    ok := fun _ r =>
      match r with
      | Req.pscnv_mem_alloc size _ => decide (size ≤ 2 ^ 30)
      | _ => true }


/-- A PSCNV backend that grants everything except `vmap`. -/
def pscnvNoVmap : Pscnv :=
  { pscnvOk with
    ok := fun _ r =>
      match r with
      | Req.vmap _ => false
      | _ => true }

/-- An NVRM backend that grants everything except `nvrm_bo_host_map`. -/
def User.nvrmNoMap : User.Nvrm :=
  { User.nvrmOk with
    ok := fun _ r =>
      match r with
      | Req.nvrm_bo_host_map _ => false
      | _ => true }

/-- A PSCNV backend on which every call succeeds and whose `compute->init`
hook submits its set-up commands: eight bytes staged and published in the
push buffer, one entry posted in the indirect buffer. -/
def pscnvBusy : Pscnv :=
  { pscnvOk with
    compute_init := fun _ =>
      { ib_get := 0, ib_put := 1, pb_get := 0, pb_put := 8, pb_pos := 8 } }

/-- The ring geometry of a kernel context for given orders: masks and sizes
are the powers of two the orders call for. -/
def gdev_fifo.geometry (f : gdev_fifo) (ib_order pb_order : Nat) : Prop :=
  f.ib_order = ib_order ∧ f.pb_order = pb_order ∧ f.ib_mask = 2 ^ f.ib_order - 1 ∧
  f.pb_size = 2 ^ f.pb_order ∧ f.pb_mask = f.pb_size - 1

/-- Both rings of a kernel context are empty and nothing is staged. -/
def gdev_fifo.empty (f : gdev_fifo) : Prop :=
  f.ib_get = 0 ∧ f.ib_put = 0 ∧ f.pb_get = 0 ∧ f.pb_put = 0 ∧ f.pb_pos = 0

/-- The ring geometry of a user-space context for given orders. -/
def User.gdev_fifo.geometry (f : User.gdev_fifo) (ib_order pb_order : Nat) : Prop :=
  f.ib_order = ib_order ∧ f.pb_order = pb_order ∧ f.ib_mask = 2 ^ f.ib_order - 1 ∧
  f.pb_size = 2 ^ f.pb_order ∧ f.pb_mask = f.pb_size - 1

/-- Both rings of a user-space context are empty and nothing is staged. -/
def User.gdev_fifo.empty (f : User.gdev_fifo) : Prop :=
  f.ib_get = 0 ∧ f.ib_put = 0 ∧ f.pb_get = 0 ∧ f.pb_put = 0 ∧ f.pb_pos = 0

/-- PSCNV parameters of a supported device: every lookup succeeds. -/
def pscnvParamsOk : PscnvParams where
  getparam := fun p => some (1000 + p)
  PSCNV_GETPARAM_MP_COUNT := 1
  PSCNV_GETPARAM_FB_SIZE := 2
  PSCNV_GETPARAM_AGP_SIZE := 3
  PSCNV_GETPARAM_CHIPSET_ID := 4
  GDEV_NVIDIA_QUERY_DEVICE_MEM_SIZE := 101
  GDEV_NVIDIA_QUERY_DMA_MEM_SIZE := 102
  GDEV_NVIDIA_QUERY_CHIPSET := 103

/-! ## The device registry (user space) -/

namespace User

/-- The constant `GDEV_DEVICE_MAX_COUNT` of `nvrm_gdev.c`. -/
def GDEV_DEVICE_MAX_COUNT : Nat := 32

/-- The fields of a slot of the device table (`struct gdev_device`) that the
registry touches. -/
structure gdev_device where
  id : Int
  users : Int
  /-- the backend device handle; `none` is `NULL` -/
  priv : Option Nat
  deriving DecidableEq, Repr

/-- The two globals of `nvrm_gdev.c`: the backend session `nvrm_ctx` and the
device table `gdevs` (`none` is `NULL`). -/
structure Registry where
  nvrm_ctx : Option Nat
  gdevs : Option (Nat → gdev_device)

/-- What the process environment answers during one `gdev_raw_dev_open`. -/
structure Host where
  /-- the result of `nvrm_open()`; `none` is `NULL` -/
  nvrm_open : Option Nat
  /-- the contents of the memory `MALLOC` hands out for the table, slot by
  slot; `none` when it fails -/
  MALLOC : Option (Nat → gdev_device)
  /-- the result of `nvrm_device_open(nvrm_ctx, minor)`; `none` is `NULL` -/
  nvrm_device_open : Nat → Nat → Option Nat
  /-- the value of `sizeof(*gdevs)` -/
  sizeof_gdev : Nat

/-- A slot all of whose bytes are `c`: a 32-bit signed count made of four such
bytes, and a pointer that is `NULL` exactly when the byte is 0. -/
def gdev_device.filled (c : Nat) : gdev_device :=
  { id := (((c % 256) * 0x01010101 + 2 ^ 31) % 2 ^ 32 : Nat) - 2 ^ 31,
    users := (((c % 256) * 0x01010101 + 2 ^ 31) % 2 ^ 32 : Nat) - 2 ^ 31,
    priv := if c % 256 = 0 then none else some ((c % 256) * 0x0101010101010101) }

/-- The call `memset(s, c, n)` on the device table, for slots of `sz` bytes: the
slots that lie within the first `n` bytes are filled with the byte `c`, the
others keep their contents. -/
def memset (s : Nat → gdev_device) (c n sz : Nat) : Nat → gdev_device :=
  fun i => if (i + 1) * sz ≤ n then gdev_device.filled c else s i

/-- Modelled from the spec: `gdev_init_device` (the common device set-up) is not
in the source tree.  It records the device index and the backend-private handle
in the slot; the adapter calls it only on a slot whose reference count is 0 and
maintains that count itself. -/
def gdev_init_device (gdev : gdev_device) (minor : Nat) (dev : Nat) : gdev_device :=
  { gdev with id := minor, priv := some dev }

/-- The body of `gdev_raw_dev_open(minor)`: the slot returned (`none` for
`NULL`) and the globals afterwards. -/
def gdev_raw_dev_open (H : Host) (minor : Nat) (R : Registry) : Option Nat × Registry :=
  -- if (!nvrm_ctx) { nvrm_ctx = nvrm_open(); if (!nvrm_ctx) return NULL; }
  let session := match R.nvrm_ctx with
    | some s => some s
    | none => H.nvrm_open
  match session with
  | none => (none, R)
  | some s =>
    -- if (!gdevs) { gdevs = MALLOC(...); if (!gdevs) return NULL;
    --               memset(gdevs, sizeof(*gdevs) * GDEV_DEVICE_MAX_COUNT, 0); }
    let table := match R.gdevs with
      | some t => some t
      | none =>
        H.MALLOC.map
          (fun t => memset t (H.sizeof_gdev * GDEV_DEVICE_MAX_COUNT) 0 H.sizeof_gdev)
    match table with
    | none => (none, { nvrm_ctx := some s, gdevs := none })
    | some t =>
      -- gdev = &gdevs[minor]
      let gdev := t minor
      if gdev.users = 0 then
        -- dev = nvrm_device_open(nvrm_ctx, minor)
        match H.nvrm_device_open s minor with
        | none => (none, { nvrm_ctx := some s, gdevs := some t })
        | some dev =>
          let g1 := gdev_init_device gdev minor dev
          -- gdev->users++
          (some minor, { nvrm_ctx := some s,
                         gdevs := some (Function.update t minor
                           { g1 with users := g1.users + 1 }) })
      else
        -- gdev->users++
        (some minor, { nvrm_ctx := some s,
                       gdevs := some (Function.update t minor
                         { gdev with users := gdev.users + 1 }) })

/-- The body of `gdev_raw_dev_close(gdev)` for `gdev = &gdevs[i]`: the globals
afterwards.  The calls `gdev_exit_device(gdev)` and `nvrm_device_close(dev)`
touch neither the counts nor the globals. -/
def gdev_raw_dev_close (i : Nat) (R : Registry) : Registry :=
  match R.gdevs with
  | none => R
  | some t =>
    -- gdev->users--
    let t1 := Function.update t i { t i with users := (t i).users - 1 }
    if (t1 i).users = 0 then
      -- for (i = 0; i < GDEV_DEVICE_MAX_COUNT; i++) if (gdevs[i].users > 0) return;
      if (List.range GDEV_DEVICE_MAX_COUNT).any (fun j => decide ((t1 j).users > 0)) then
        { nvrm_ctx := R.nvrm_ctx, gdevs := some t1 }
      else
        -- FREE(gdevs); nvrm_close(nvrm_ctx); nvrm_ctx = NULL; gdevs = NULL;
        { nvrm_ctx := none, gdevs := none }
    else
      { nvrm_ctx := R.nvrm_ctx, gdevs := some t1 }

/-- The globals when the process starts. -/
def Registry.init : Registry := { nvrm_ctx := none, gdevs := none }

/-- A slot whose bytes are all 0. -/
def gdev_device.zero : gdev_device := { id := 0, users := 0, priv := none }

/-- An environment in which everything succeeds and `MALLOC` hands out memory
that happens to be all zero. -/
def hostZero : Host where
  nvrm_open := some 1
  MALLOC := some (fun _ => gdev_device.zero)
  nvrm_device_open := fun _ minor => some (100 + minor)
  sizeof_gdev := 64

/-- An environment in which everything succeeds and `MALLOC` hands out memory
in which the count of slot 1 reads 1 (all other bytes are 0). -/
def hostStale : Host :=
  { hostZero with
    MALLOC := some (fun i => if i = 1 then { id := 0, users := 1, priv := none }
                             else gdev_device.zero) }

/-- An environment in which everything succeeds and `MALLOC` hands out memory
in which the count of slot 0 reads 7 and that of slot 1 reads 3. -/
def hostDirty : Host :=
  { hostZero with
    MALLOC := some (fun i => if i = 0 then { id := 0, users := 7, priv := none }
                             else if i = 1 then { id := 0, users := 3, priv := none }
                             else gdev_device.zero) }

end User

/-! ## Reading and writing memory objects (user space) -/

namespace User

/-- A byte of host-visible memory. -/
abbrev Byte := Fin 256

/-- Host-visible memory: the byte at each address of the 64-bit host address
space.  A host pointer is the address it holds; the adapter performs no bounds
check and none is modelled. -/
def HostMem := Nat → Byte

/-- The difference `a - b` of two 64-bit unsigned values. -/
def sub64 (a b : Nat) : Nat := (a % 2 ^ 64 + (2 ^ 64 - b % 2 ^ 64)) % 2 ^ 64

/-- The effect of `memcpy(ptr + offset, buf, n)` with `n` the length of `buf`:
byte `k` of `buf` lands at address `ptr + offset + k`, computed in 64 bits. -/
def HostMem.store (m : HostMem) (ptr offset : Nat) (buf : List Byte) : HostMem :=
  fun a =>
    if a < 2 ^ 64 ∧ sub64 a (ptr + offset) < buf.length then
      buf.getD (sub64 a (ptr + offset)) 0
    else m a

/-- The bytes `memcpy(buf, ptr + offset, n)` delivers: byte `k` comes from
address `ptr + offset + k`, computed in 64 bits. -/
def HostMem.load (m : HostMem) (ptr offset n : Nat) : List Byte :=
  (List.range n).map (fun k => m ((ptr + offset + k) % 2 ^ 64))

/-- The four bytes of a 32-bit value, lowest first. -/
def bytes32 (val : Nat) : List Byte :=
  [⟨val % 256, Nat.mod_lt _ (by decide)⟩, ⟨val / 2 ^ 8 % 256, Nat.mod_lt _ (by decide)⟩,
   ⟨val / 2 ^ 16 % 256, Nat.mod_lt _ (by decide)⟩,
   ⟨val / 2 ^ 24 % 256, Nat.mod_lt _ (by decide)⟩]

/-- The 32-bit value stored at `ptr + offset`, lowest byte first. -/
def HostMem.load32 (m : HostMem) (ptr offset : Nat) : Nat :=
  (m ((ptr + offset + 0) % 2 ^ 64)).val + (m ((ptr + offset + 1) % 2 ^ 64)).val * 2 ^ 8 +
    (m ((ptr + offset + 2) % 2 ^ 64)).val * 2 ^ 16 +
    (m ((ptr + offset + 3) % 2 ^ 64)).val * 2 ^ 24

/-- The address an access of `n` bytes through `ptr` starts from.  The access
functions do not test `ptr`: through `NULL` an access of no bytes touches
nothing and goes on, an access of one byte or more does not return (`none`). -/
def access_base (ptr : Option Nat) (n : Nat) : Option Nat :=
  match ptr with
  | some p => some p
  | none => if n = 0 then some 0 else none

/-- The call `nvrm_bo_host_unmap(bo)`: drops the host mapping the library
remembers for the buffer, if there is one. -/
def nvrm_bo_host_unmap (bo : nvrm_bo) (w : World) : nvrm_bo × World :=
  match bo.mmap with
  | some p => ({ bo with mmap := none }, w.release (Res.hostmap p))
  | none => (bo, w)

/-- How a read or write of a memory object ends: the value returned (`none`
when the operation accesses memory through a `NULL` pointer and does not
return), the memory object with its buffer as the library leaves it, the world,
and the host-visible memory. -/
structure Access (α : Type) where
  ret : Option α
  mem : gdev_mem
  w : World
  m : HostMem

/-- The head of the four access functions: `ptr` is `mem->map` when that is not
`NULL`, else the result of `nvrm_bo_host_map(bo)`. -/
def host_ptr (N : Nvrm) (mem : gdev_mem) (w : World) : Option Nat × nvrm_bo × World :=
  match mem.map with
  | some p => (some p, mem.bo, w)
  | none => nvrm_bo_host_map N mem.bo w

/-- The tail of the four access functions:
`if (!mem->map) nvrm_bo_host_unmap(bo)`. -/
def host_ptr_done (mem : gdev_mem) (bo : nvrm_bo) (w : World) : nvrm_bo × World :=
  match mem.map with
  | some _ => (bo, w)
  | none => nvrm_bo_host_unmap bo w

/-- The body of `gdev_raw_read32(mem, addr)`. -/
def gdev_raw_read32 (N : Nvrm) (mem : gdev_mem) (addr : Nat) (w : World) (m : HostMem) :
    Access Nat :=
  let r := host_ptr N mem w
  -- offset = addr - mem->addr; val = *(uint32_t*)(ptr + offset)
  let offset := sub64 addr mem.addr
  match access_base r.1 4 with
  | none => { ret := none, mem := { mem with bo := r.2.1 }, w := r.2.2, m := m }
  | some ptr =>
    let val := m.load32 ptr offset
    let u := host_ptr_done mem r.2.1 r.2.2
    { ret := some val, mem := { mem with bo := u.1 }, w := u.2, m := m }

/-- The body of `gdev_raw_write32(mem, addr, val)`. -/
def gdev_raw_write32 (N : Nvrm) (mem : gdev_mem) (addr val : Nat) (w : World)
    (m : HostMem) : Access Unit :=
  let r := host_ptr N mem w
  -- offset = addr - mem->addr; *(uint32_t*)(ptr + offset) = val
  let offset := sub64 addr mem.addr
  match access_base r.1 4 with
  | none => { ret := none, mem := { mem with bo := r.2.1 }, w := r.2.2, m := m }
  | some ptr =>
    let m1 := m.store ptr offset (bytes32 val)
    let u := host_ptr_done mem r.2.1 r.2.2
    { ret := some (), mem := { mem with bo := u.1 }, w := u.2, m := m1 }

/-- The body of `gdev_raw_read(mem, buf, addr, size)`: the value returned comes
with the `size` bytes delivered into `buf`. -/
def gdev_raw_read (N : Nvrm) (mem : gdev_mem) (addr size : Nat) (w : World) (m : HostMem) :
    Access (Int × List Byte) :=
  let r := host_ptr N mem w
  -- offset = addr - mem->addr; memcpy(buf, ptr + offset, size)
  let offset := sub64 addr mem.addr
  match access_base r.1 size with
  | none => { ret := none, mem := { mem with bo := r.2.1 }, w := r.2.2, m := m }
  | some ptr =>
    let out := m.load ptr offset size
    let u := host_ptr_done mem r.2.1 r.2.2
    { ret := some (0, out), mem := { mem with bo := u.1 }, w := u.2, m := m }

/-- The body of `gdev_raw_write(mem, addr, buf, size)`; `buf` holds at least
`size` bytes. -/
def gdev_raw_write (N : Nvrm) (mem : gdev_mem) (addr : Nat) (buf : List Byte) (size : Nat)
    (w : World) (m : HostMem) : Access Int :=
  let r := host_ptr N mem w
  -- offset = addr - mem->addr; memcpy(ptr + offset, buf, size)
  let offset := sub64 addr mem.addr
  match access_base r.1 size with
  | none => { ret := none, mem := { mem with bo := r.2.1 }, w := r.2.2, m := m }
  | some ptr =>
    let m1 := m.store ptr offset (buf.take size)
    let u := host_ptr_done mem r.2.1 r.2.2
    { ret := some 0, mem := { mem with bo := u.1 }, w := u.2, m := m1 }

/-- The host address at which the access functions reach byte 0 of a memory
object: the standing pointer, else the one a temporary mapping yields. -/
def gdev_mem.window (mem : gdev_mem) : Nat :=
  match mem.map with
  | some p => p
  | none => mem.bo.id

/-- A memory object of 8192 bytes at device address `0x200000` without a
standing host pointer. -/
def memUnmapped : gdev_mem :=
  { id := 0, bo := { id := 1, size := 8192, sysram := 0, mmap := none },
    addr := 0x200000, size := 8192, map := none }

/-- A memory object of 8192 bytes at device address `0x200000` with a standing
host pointer. -/
def memMapped : gdev_mem :=
  { id := 0, bo := { id := 1, size := 8192, sysram := 1, mmap := some 1 },
    addr := 0x200000, size := 8192, map := some 1 }

/-- A world in which record 0 and buffer 1 are live. -/
def worldUnmapped : World :=
  { trace := [Ev.acq (Res.record 0), Ev.acq (Res.bo 1 8192 0)],
    live := [Res.bo 1 8192 0, Res.record 0], next := 2 }

/-- A world in which record 0, buffer 1 and its host mapping are live. -/
def worldMapped : World :=
  { trace := [Ev.acq (Res.record 0), Ev.acq (Res.bo 1 8192 1), Ev.acq (Res.hostmap 1)],
    live := [Res.hostmap 1, Res.bo 1 8192 1, Res.record 0], next := 3 }

/-- Host-visible memory that is all zero. -/
def memZero : HostMem := fun _ => 0

end User

namespace User

/-- An access whose temporary mapping was refused: the backend calls it made
start with the refused `nvrm_bo_host_map`, which is its only map call, and
nothing was acquired. -/
def Access.refused {α : Type} (a : Access α) (mem : gdev_mem) (w : World) : Prop :=
  ∃ rest, w.since a.w = Ev.refused (Req.nvrm_bo_host_map mem.bo.id) :: rest ∧
    acqs rest = [] ∧ ∀ q, Ev.refused q ∉ rest

end User

/-! # Theorems -/

/-! ## Memory objects -/

/-- C1 (defect in the code): the switch in `gdev_mem_alloc` has no `break`, so
the function returns no object for every class, backend and size; on an
all-succeeding backend a `GDEV_MEM_DEVICE` request of 8192 bytes runs
`__gdev_mem_alloc` twice (once with the VRAM flag, once with the SYSRAM_SNOOP
flag), keeps both buffers live and still returns no object. -/
theorem gdev_mem_alloc_falls_through :
    (∀ (B : Pscnv) (vas : gdev_vas) (size : Nat) (type : Int) (gdev : gdev_device)
        (w : World), (gdev_mem_alloc B vas size type gdev w).1 = none) ∧
    gdev_mem_alloc pscnvOk ⟨7⟩ 8192 pscnvOk.GDEV_MEM_DEVICE gdev0 World.init =
      (none, { users := 1, mem_used := 8192, chipset := 0xc0 },
       { trace := [Ev.acq (Res.record 0), Ev.acq (Res.bo 1 8192 0x00),
                   Ev.acq (Res.vasmap 0x2000),
                   Ev.acq (Res.record 3), Ev.acq (Res.bo 4 8192 0x20),
                   Ev.acq (Res.vasmap 0x5000), Ev.acq (Res.vmap 4)],
         live := [Res.vmap 4, Res.vasmap 0x5000, Res.bo 4 8192 0x20, Res.record 3,
                  Res.vasmap 0x2000, Res.bo 1 8192 0x00, Res.record 0],
         next := 7 }) := by
  refine ⟨?_, by decide⟩
  intro B vas size type gdev w
  unfold gdev_mem_alloc
  split_ifs <;> rfl

/-- C2 (defect in the code): on an all-succeeding backend, `gdev_mem_alloc` for
`GDEV_MEM_DEVICE` and 8192 bytes returns no object (so nothing can be handed to
`gdev_mem_free`), yet `mem_used` has gone from 0 to 8192 and seven backend
resources that were not live before are live afterwards. -/
theorem gdev_mem_alloc_device_leaks :
    (gdev_mem_alloc pscnvOk ⟨7⟩ 8192 pscnvOk.GDEV_MEM_DEVICE gdev0 World.init).1 = none ∧
    gdev0.mem_used = 0 ∧
    (gdev_mem_alloc pscnvOk ⟨7⟩ 8192 pscnvOk.GDEV_MEM_DEVICE gdev0 World.init).2.1.mem_used
      = 8192 ∧
    World.init.live = [] ∧
    (gdev_mem_alloc pscnvOk ⟨7⟩ 8192 pscnvOk.GDEV_MEM_DEVICE gdev0 World.init).2.2.live =
      [Res.vmap 4, Res.vasmap 0x5000, Res.bo 4 8192 0x20, Res.record 3,
       Res.vasmap 0x2000, Res.bo 1 8192 0x00, Res.record 0] := by
  decide

/-- C3: when the backend buffer allocator refuses a device-memory request of
`size` bytes, `gdev_mem_alloc` with class `GDEV_MEM_DEVICE` returns no object
and leaves the device record, `mem_used` included, as it was. -/
theorem gdev_mem_alloc_refused (B : Pscnv) (vas : gdev_vas) (size : Nat)
    (gdev : gdev_device) (w : World)
    (hrefuse : ∀ tr, B.ok tr (Req.pscnv_mem_alloc size B.PSCNV_GEM_VRAM_SMALL) = false) :
    (gdev_mem_alloc B vas size B.GDEV_MEM_DEVICE gdev w).1 = none ∧
    (gdev_mem_alloc B vas size B.GDEV_MEM_DEVICE gdev w).2.1 = gdev ∧
    (gdev_mem_alloc B vas size B.GDEV_MEM_DEVICE gdev w).2.1.mem_used = gdev.mem_used := by
  have h1 : (__gdev_mem_alloc B vas size B.PSCNV_GEM_VRAM_SMALL w).1 = none := by
    unfold __gdev_mem_alloc
    split_ifs <;> simp_all
  simp [gdev_mem_alloc, gdev_mem_alloc_device, gdev_mem_alloc_dma, gdev_mem_alloc_default, h1]

/-- C3 at a concrete input: a request of `2^30 + 1` bytes on a backend that
refuses everything above `2^30`. -/
theorem gdev_mem_alloc_refused_witness :
    (∀ tr, pscnvLimited.ok tr
        (Req.pscnv_mem_alloc (2 ^ 30 + 1) pscnvLimited.PSCNV_GEM_VRAM_SMALL) = false) ∧
    (gdev_mem_alloc pscnvLimited ⟨7⟩ (2 ^ 30 + 1) pscnvLimited.GDEV_MEM_DEVICE gdev0
        World.init).1 = none ∧
    (gdev_mem_alloc pscnvLimited ⟨7⟩ (2 ^ 30 + 1) pscnvLimited.GDEV_MEM_DEVICE gdev0
        World.init).2.1 = gdev0 ∧
    (gdev_mem_alloc pscnvLimited ⟨7⟩ (2 ^ 30 + 1) pscnvLimited.GDEV_MEM_DEVICE gdev0
        World.init).2.1.mem_used = gdev0.mem_used :=
  have h : ∀ tr, pscnvLimited.ok tr
      (Req.pscnv_mem_alloc (2 ^ 30 + 1) pscnvLimited.PSCNV_GEM_VRAM_SMALL) = false := by
    intro tr; simp [pscnvLimited]
  ⟨h, gdev_mem_alloc_refused pscnvLimited ⟨7⟩ (2 ^ 30 + 1) gdev0 World.init h⟩

/-- C4 (as stated, refuted): with a DMA-class request above one page on a
kernel backend whose `vmap` yields no pointer, `__gdev_mem_alloc` still returns
an object, its `map` is `NULL`, and buffer and VAS mapping stay live; likewise
`__gdev_raw_mem_alloc` with `mappable = 1` when `nvrm_bo_host_map` yields no
pointer. -/
theorem mem_alloc_returns_object_without_host_pointer :
    __gdev_mem_alloc pscnvNoVmap ⟨7⟩ 8192 pscnvNoVmap.PSCNV_GEM_SYSRAM_SNOOP World.init =
      (some { id := 0, vas := ⟨7⟩, bo := { id := 1, size := 8192, flags := 0x20 },
              addr := 0x2000, map := none },
       { trace := [Ev.acq (Res.record 0), Ev.acq (Res.bo 1 8192 0x20),
                   Ev.acq (Res.vasmap 0x2000), Ev.refused (Req.vmap 1)],
         live := [Res.vasmap 0x2000, Res.bo 1 8192 0x20, Res.record 0],
         next := 3 }) ∧
    User.__gdev_raw_mem_alloc User.nvrmNoMap 8192 1 1 World.init =
      (some { id := 0, bo := { id := 1, size := 8192, sysram := 1, mmap := none },
              addr := 0x200000, size := 8192, map := none },
       { trace := [Ev.acq (Res.record 0), Ev.acq (Res.bo 1 8192 1),
                   Ev.refused (Req.nvrm_bo_host_map 1)],
         live := [Res.bo 1 8192 1, Res.record 0],
         next := 2 }) := by
  constructor <;> decide

/-- C4 (amended): both helpers return an object exactly when the record and
the buffer (and, in the kernel, the VAS mapping) were obtained, whatever the
host map call yields.  A failing return has given back everything it obtained,
in reverse order (so a failed VAS mapping releases the buffer).  A returned
object keeps record, buffer and VAS mapping live, and a host mapping is live
exactly when its `map` is not `NULL`. -/
theorem mem_alloc_helpers_outcome (B : Pscnv) (N : User.Nvrm) (vas : gdev_vas)
    (size flags sysram mappable : Nat) (w : World) :
    ((__gdev_mem_alloc B vas size flags w).1.isSome =
        (B.ok w.trace Req.kzalloc &&
         B.ok (w.trace ++ [Ev.acq (Res.record w.next)]) (Req.pscnv_mem_alloc size flags) &&
         B.ok (w.trace ++ [Ev.acq (Res.record w.next),
                           Ev.acq (Res.bo (w.next + 1) (B.bo_size size) flags)])
              (Req.pscnv_vspace_map (w.next + 1)))) ∧
    (match __gdev_mem_alloc B vas size flags w with
     | (none, w') =>
        w'.live = w.live ∧ rels (w.since w') = (acqs (w.since w')).reverse
     | (some mem, w') =>
        (mem.map = none ∧
          w'.live = Res.vasmap mem.addr :: mem.bo.res :: Res.record mem.id :: w.live) ∨
        (∃ p, mem.map = some p ∧ flags &&& B.PSCNV_GEM_SYSRAM_SNOOP ≠ 0 ∧
          w'.live = (if size > B.PAGE_SIZE then Res.vmap p else Res.kmap p) ::
            Res.vasmap mem.addr :: mem.bo.res :: Res.record mem.id :: w.live)) ∧
    ((User.__gdev_raw_mem_alloc N size sysram mappable w).1.isSome =
        (N.ok w.trace Req.malloc &&
         N.ok (w.trace ++ [Ev.acq (Res.record w.next)]) (Req.nvrm_bo_create size sysram))) ∧
    (match User.__gdev_raw_mem_alloc N size sysram mappable w with
     | (none, w') =>
        w'.live = w.live ∧ rels (w.since w') = (acqs (w.since w')).reverse
     | (some mem, w') =>
        (mem.map = none ∧ w'.live = mem.bo.res :: Res.record mem.id :: w.live) ∨
        (∃ p, mem.map = some p ∧ mappable ≠ 0 ∧
          w'.live = Res.hostmap p :: mem.bo.res :: Res.record mem.id :: w.live)) := by
  refine ⟨?_, ?_, ?_, ?_⟩
  · simp only [__gdev_mem_alloc, World.acquire, World.release, World.refuse, World.call,
      pscnv_bo.res]
    split_ifs <;> simp_all
  · simp only [__gdev_mem_alloc, World.acquire, World.release, World.refuse, World.call,
      pscnv_bo.res, Pscnv.vmap, kmap]
    split_ifs <;> simp_all [World.since, acqs, rels]
  · simp only [User.__gdev_raw_mem_alloc, User.nvrm_bo_create, World.acquire, World.release,
      World.refuse, World.call]
    split_ifs <;> simp_all
  · simp only [User.__gdev_raw_mem_alloc, User.nvrm_bo_create, User.nvrm_bo_host_map,
      World.acquire, World.release, World.refuse, World.call, User.nvrm_bo.res]
    split_ifs <;> simp_all [World.since, acqs, rels]
    split_ifs <;> simp_all

/-! ## Bookkeeping of multi-step creation -/

@[simp] theorem acqs_append (l1 l2 : List Ev) : acqs (l1 ++ l2) = acqs l1 ++ acqs l2 := by
  induction l1 with
  | nil => rfl
  | cons e es ih => cases e <;> simp [acqs, ih]

@[simp] theorem rels_append (l1 l2 : List Ev) : rels (l1 ++ l2) = rels l1 ++ rels l2 := by
  induction l1 with
  | nil => rfl
  | cons e es ih => cases e <;> simp [acqs, rels, ih]

theorem mem_acqs {r : Res} {evs : List Ev} (h : r ∈ acqs evs) : Ev.acq r ∈ evs := by
  induction evs with
  | nil => simp [acqs] at h
  | cons e es ih =>
    cases e with
    | acq r' =>
      simp only [acqs, List.mem_cons] at h
      rcases h with h | h
      · subst h; simp
      · exact List.mem_cons_of_mem _ (ih h)
    | _ => exact List.mem_cons_of_mem _ (ih (by simpa [acqs] using h))

theorem since_eq {w0 w : World} {evs : List Ev} (h : w.trace = w0.trace ++ evs) :
    w0.since w = evs := by
  simp [World.since, h]

theorem ctxNewEv_benign (chipset : Nat) : Benign (ctxNewEv chipset) := by
  refine ⟨?_, ?_, ?_⟩ <;> intro r <;> simp [ctxNewEv]

theorem Holding.refl (P : Ev → Prop) (w : World) : Holding P w w [] := by
  refine ⟨by simp, [], by simp, rfl, rfl, by simp, by simp⟩

theorem Holding.acquire {P : Ev → Prop} {w0 w : World} {s : List Res} (hP : Benign P)
    (h : Holding P w0 w s) (r : Res) : Holding P w0 (w.acquire r) (r :: s) := by
  obtain ⟨hl, evs, ht, ha, hr, hp, hq⟩ := h
  refine ⟨by simp [World.acquire, hl], evs ++ [Ev.acq r], by simp [World.acquire, ht],
    by simp [acqs, ha], by simp [rels, hr], ?_, ?_⟩
  · intro e he
    rcases List.mem_append.1 he with h1 | h1
    · exact hp e h1
    · simp at h1; subst h1; exact hP.1 r
  · intro q hq'
    rcases List.mem_append.1 hq' with h1 | h1
    · exact hq q h1
    · simp at h1

theorem Holding.call {P : Ev → Prop} {w0 w : World} {s : List Res}
    (h : Holding P w0 w s) (e : Ev) (he : P e) (hacq : acqs [e] = []) (hrel : rels [e] = [])
    (href : ∀ q, e = Ev.refused q → q.isHostMap = true) :
    Holding P w0 (w.call e) s := by
  obtain ⟨hl, evs, ht, ha, hr, hp, hq⟩ := h
  refine ⟨by simp [World.call, hl], evs ++ [e], by simp [World.call, ht],
    by simp [hacq, ha], by simp [hrel, hr], ?_, ?_⟩
  · intro e' he'
    rcases List.mem_append.1 he' with h1 | h1
    · exact hp e' h1
    · simp at h1; subst h1; exact he
  · intro q hq'
    rcases List.mem_append.1 hq' with h1 | h1
    · exact hq q h1
    · simp at h1; exact href q h1.symm

theorem Holding.refuseMap {P : Ev → Prop} {w0 w : World} {s : List Res} (hP : Benign P)
    (h : Holding P w0 w s) (q : Req) (hq : q.isHostMap = true) :
    Holding P w0 (w.refuse q) s := by
  refine h.call (Ev.refused q) (hP.2.2 q) rfl rfl ?_
  intro q' h'
  cases h'
  exact hq

theorem Holding.fail {P : Ev → Prop} {w0 w : World} {s : List Res} (hP : Benign P) (R : Prop)
    (h : Holding P w0 w s) (q : Req) (hq : q.isHostMap = false) :
    Unwinding P R w0 (w.refuse q) s := by
  obtain ⟨hl, evs, ht, ha, hr, hp, _⟩ := h
  refine ⟨by simp [World.refuse, World.call, hl], evs ++ [Ev.refused q],
    by simp [World.refuse, World.call, ht], by simp [acqs, rels, ha, hr], ?_, ?_⟩
  · intro e he
    rcases List.mem_append.1 he with h1 | h1
    · exact hp e h1
    · simp at h1; subst h1; exact hP.2.2 q
  · exact Or.inr ⟨q, by simp, hq⟩

theorem Holding.abandon {P : Ev → Prop} {w0 w : World} {s : List Res} {R : Prop}
    (h : Holding P w0 w s) (hR : R) : Unwinding P R w0 w s := by
  obtain ⟨hl, evs, ht, ha, hr, hp, _⟩ := h
  exact ⟨hl, evs, ht, by simp [ha, hr], hp, Or.inl hR⟩

theorem Unwinding.release {P : Ev → Prop} {R : Prop} {w0 w : World} {s : List Res}
    (hP : Benign P) (r : Res) (h : Unwinding P R w0 w (r :: s)) :
    Unwinding P R w0 (w.release r) s := by
  obtain ⟨hl, evs, ht, hr, hp, hq⟩ := h
  refine ⟨by simp [World.release, hl], evs ++ [Ev.rel r], by simp [World.release, ht],
    by simp [acqs, rels, ← hr], ?_, ?_⟩
  · intro e he
    rcases List.mem_append.1 he with h1 | h1
    · exact hp e h1
    · simp at h1; subst h1; exact hP.2.1 r
  · rcases hq with h1 | ⟨q, h1, h2⟩
    · exact Or.inl h1
    · exact Or.inr ⟨q, List.mem_append_left _ h1, h2⟩

theorem Unwinding.vunmap {P : Ev → Prop} {R : Prop} {w0 w : World} {s : List Res}
    (hP : Benign P) (o : Option Nat) (h : Unwinding P R w0 w (vmapStack o ++ s)) :
    Unwinding P R w0 (vunmap o w) s := by
  cases o with
  | none => simpa [vmapStack, vunmap] using h
  | some p => exact Unwinding.release hP (Res.vmap p) (by simpa [vmapStack] using h)

theorem Holding.vmap {P : Ev → Prop} {w0 w : World} {s : List Res} (hP : Benign P)
    (B : Pscnv) (bo : pscnv_bo) (h : Holding P w0 w s) :
    Holding P w0 (B.vmap bo w).2 (vmapStack (B.vmap bo w).1 ++ s) := by
  unfold Pscnv.vmap
  split_ifs
  · simpa [vmapStack] using h.acquire hP (Res.vmap bo.id)
  · simpa [vmapStack] using h.refuseMap hP (Req.vmap bo.id) rfl

/-! ## The stages of `gdev_ctx_new` -/

theorem fail_chan_unw {P : Ev → Prop} {R : Prop} {w0 w : World} (hP : Benign P)
    (ctx : Nat) (h : Unwinding P R w0 w [Res.record ctx]) :
    Unwinding P R w0 (fail_chan ctx w) [] :=
  Unwinding.release hP _ h

theorem fail_ib_unw {P : Ev → Prop} {R : Prop} {w0 w : World} (hP : Benign P)
    (ctx chan : Nat) (h : Unwinding P R w0 w [Res.chan chan, Res.record ctx]) :
    Unwinding P R w0 (fail_ib ctx chan w) [] :=
  fail_chan_unw hP ctx (Unwinding.release hP _ h)

theorem fail_ibmap_unw {P : Ev → Prop} {R : Prop} {w0 w : World} (hP : Benign P)
    (ctx chan : Nat) (ib_bo : pscnv_bo)
    (h : Unwinding P R w0 w [ib_bo.res, Res.chan chan, Res.record ctx]) :
    Unwinding P R w0 (fail_ibmap ctx chan ib_bo w) [] :=
  fail_ib_unw hP ctx chan (Unwinding.release hP _ h)

theorem fail_pb_unw {P : Ev → Prop} {R : Prop} {w0 w : World} (hP : Benign P)
    (ctx chan : Nat) (ib_bo : pscnv_bo) (ib_start : Nat) (ib_map : Option Nat)
    (h : Unwinding P R w0 w (ibStack ctx chan ib_bo ib_start ib_map)) :
    Unwinding P R w0 (fail_pb ctx chan ib_bo ib_start ib_map w) [] :=
  fail_ibmap_unw hP ctx chan ib_bo
    (Unwinding.release hP _ (Unwinding.vunmap hP ib_map h))

theorem fail_pbmap_unw {P : Ev → Prop} {R : Prop} {w0 w : World} (hP : Benign P)
    (ctx chan : Nat) (ib_bo : pscnv_bo) (ib_start : Nat) (ib_map : Option Nat)
    (pb_bo : pscnv_bo)
    (h : Unwinding P R w0 w (pb_bo.res :: ibStack ctx chan ib_bo ib_start ib_map)) :
    Unwinding P R w0 (fail_pbmap ctx chan ib_bo ib_start ib_map pb_bo w) [] :=
  fail_pb_unw hP ctx chan ib_bo ib_start ib_map (Unwinding.release hP _ h)

theorem fail_fifo_init_unw {P : Ev → Prop} {R : Prop} {w0 w : World} (hP : Benign P)
    (ctx chan : Nat) (ib_bo : pscnv_bo) (ib_start : Nat) (ib_map : Option Nat)
    (pb_bo : pscnv_bo) (pb_start : Nat) (pb_map : Option Nat)
    (h : Unwinding P R w0 w (pbStack ctx chan ib_bo ib_start ib_map pb_bo pb_start pb_map)) :
    Unwinding P R w0
      (fail_fifo_init ctx chan ib_bo ib_start ib_map pb_bo pb_start pb_map w) [] :=
  fail_pbmap_unw hP ctx chan ib_bo ib_start ib_map pb_bo
    (Unwinding.release hP _ (Unwinding.vunmap hP pb_map h))

theorem fail_fence_map_unw {P : Ev → Prop} {R : Prop} {w0 w : World} (hP : Benign P)
    (ctx chan : Nat) (ib_bo : pscnv_bo) (ib_start : Nat) (ib_map : Option Nat)
    (pb_bo : pscnv_bo) (pb_start : Nat) (pb_map : Option Nat) (fence_bo : pscnv_bo)
    (h : Unwinding P R w0 w
      (fence_bo.res :: pbStack ctx chan ib_bo ib_start ib_map pb_bo pb_start pb_map)) :
    Unwinding P R w0
      (fail_fence_map ctx chan ib_bo ib_start ib_map pb_bo pb_start pb_map fence_bo w) [] :=
  fail_fifo_init_unw hP ctx chan ib_bo ib_start ib_map pb_bo pb_start pb_map
    (Unwinding.release hP _ h)

theorem gdev_ctx_new_fence_outcome (B : Pscnv) (chipset : Nat) (vas : gdev_vas)
    (ctx chan : Nat) (fifo : gdev_fifo) (w0 w : World)
    (hchip : chipset &&& 0xf0 = 0xc0)
    (h : Holding (ctxNewEv chipset) w0 w
      (pbStack ctx chan fifo.ib_bo fifo.ib_base fifo.ib_map
        fifo.pb_bo fifo.pb_base fifo.pb_map)) :
    CtxNewOutcome B chipset w0 (gdev_ctx_new_fence B vas ctx chan fifo w) := by
  have hP := ctxNewEv_benign chipset
  unfold gdev_ctx_new_fence
  by_cases h1 : B.ok w.trace (Req.pscnv_mem_alloc B.PAGE_SIZE B.PSCNV_GEM_SYSRAM_SNOOP) = false
  · rw [if_pos h1]
    exact fail_fifo_init_unw hP _ _ _ _ _ _ _ _ (h.fail hP _ _ rfl)
  · rw [if_neg h1]
    by_cases h2 : B.ok (w.acquire (pscnv_bo.res
        { id := w.next, size := B.bo_size B.PAGE_SIZE,
          flags := B.PSCNV_GEM_SYSRAM_SNOOP })).trace (Req.pscnv_vspace_map w.next) = false
    · simp only [h2, if_true]
      exact fail_fence_map_unw hP _ _ _ _ _ _ _ _ _ ((h.acquire hP _).fail hP _ _ rfl)
    · simp only [h2, if_false]
      exact ⟨hchip, rfl, _, ((h.acquire hP _).acquire hP _).acquire hP _, rfl⟩

theorem gdev_ctx_new_fifo_outcome (B : Pscnv) (chipset : Nat) (vas : gdev_vas)
    (ctx chan ib_order : Nat) (ib_bo : pscnv_bo) (ib_start : Nat) (ib_map : Option Nat)
    (pb_order : Nat) (pb_bo : pscnv_bo) (pb_start : Nat) (pb_map : Option Nat)
    (w0 w : World)
    (h : Holding (ctxNewEv chipset) w0 w
      (pbStack ctx chan ib_bo ib_start ib_map pb_bo pb_start pb_map)) :
    CtxNewOutcome B chipset w0
      (gdev_ctx_new_fifo B chipset vas ctx chan ib_order ib_bo ib_start ib_map
        pb_order pb_bo pb_start pb_map w) := by
  have hP := ctxNewEv_benign chipset
  have hinit : Holding (ctxNewEv chipset) w0
      (w.call (Ev.chan_init_ib chan ib_start ib_order))
      (pbStack ctx chan ib_bo ib_start ib_map pb_bo pb_start pb_map) :=
    h.call _ (by simp [ctxNewEv]) rfl rfl (by simp)
  simp only [gdev_ctx_new_fifo]
  split_ifs with h1 h2
  · exact fail_fifo_init_unw hP _ _ _ _ _ _ _ _ (h.fail hP _ _ rfl)
  · exact gdev_ctx_new_fence_outcome B chipset vas ctx chan _ w0 _ h2
      (hinit.call _ (by simp [ctxNewEv, h2]) rfl rfl (by simp))
  · exact fail_fifo_init_unw hP _ _ _ _ _ _ _ _ (hinit.abandon h2)

theorem gdev_ctx_new_pb_outcome (B : Pscnv) (chipset : Nat) (vas : gdev_vas)
    (ctx chan ib_order : Nat) (ib_bo : pscnv_bo) (ib_start : Nat) (ib_map : Option Nat)
    (w0 w : World)
    (h : Holding (ctxNewEv chipset) w0 w (ibStack ctx chan ib_bo ib_start ib_map)) :
    CtxNewOutcome B chipset w0
      (gdev_ctx_new_pb B chipset vas ctx chan ib_order ib_bo ib_start ib_map w) := by
  have hP := ctxNewEv_benign chipset
  simp only [gdev_ctx_new_pb]
  split_ifs with h1 h2
  · exact fail_pb_unw hP _ _ _ _ _ (h.fail hP _ _ rfl)
  · exact fail_pbmap_unw hP _ _ _ _ _ _ ((h.acquire hP _).fail hP _ _ rfl)
  · exact gdev_ctx_new_fifo_outcome B chipset vas ctx chan ib_order ib_bo ib_start ib_map
      _ _ _ _ w0 _ (Holding.vmap hP B _ ((h.acquire hP _).acquire hP _))

theorem gdev_ctx_new_run_outcome (B : Pscnv) (chipset : Nat) (vas : gdev_vas) (w : World) :
    CtxNewOutcome B chipset w (gdev_ctx_new_run B chipset vas w) := by
  have hP := ctxNewEv_benign chipset
  have h := Holding.refl (ctxNewEv chipset) w
  simp only [gdev_ctx_new_run]
  split_ifs with h1 h2 h3 h4
  · exact h.fail hP _ _ rfl
  · exact fail_chan_unw hP _ ((h.acquire hP _).fail hP _ _ rfl)
  · exact fail_ib_unw hP _ _ (((h.acquire hP _).acquire hP _).fail hP _ _ rfl)
  · exact fail_ibmap_unw hP _ _ _
      ((((h.acquire hP _).acquire hP _).acquire hP _).fail hP _ _ rfl)
  · exact gdev_ctx_new_pb_outcome B chipset vas _ _ _ _ _ _ w _
      (Holding.vmap hP B _ ((((h.acquire hP _).acquire hP _).acquire hP _).acquire hP _))

/-! ### The fields of the context built by `gdev_ctx_new` -/

theorem gdev_ctx_new_fence_shape (B : Pscnv) (vas : gdev_vas) (ctx chan : Nat)
    (fifo : gdev_fifo) (w : World) (c0 c : gdev_ctx)
    (h : (gdev_ctx_new_fence B vas ctx chan fifo w).1 = some (c0, c)) :
    c0.fifo = fifo ∧ c0.pctx = chan ∧
    c0.fence.sequence = List.replicate B.GDEV_FENCE_COUNT 0 := by
  simp only [gdev_ctx_new_fence] at h
  split_ifs at h
  simp only [Option.some.injEq, Prod.mk.injEq] at h
  obtain ⟨h1, _⟩ := h
  subst h1
  exact ⟨rfl, rfl, rfl⟩

theorem gdev_ctx_new_fifo_shape (B : Pscnv) (chipset : Nat) (vas : gdev_vas)
    (ctx chan ib_order : Nat) (ib_bo : pscnv_bo) (ib_start : Nat) (ib_map : Option Nat)
    (pb_order : Nat) (pb_bo : pscnv_bo) (pb_start : Nat) (pb_map : Option Nat)
    (w : World) (c0 c : gdev_ctx)
    (h : (gdev_ctx_new_fifo B chipset vas ctx chan ib_order ib_bo ib_start ib_map
        pb_order pb_bo pb_start pb_map w).1 = some (c0, c)) :
    CtxShape B ib_order pb_order ib_bo.size pb_bo.size chan c0 := by
  simp only [gdev_ctx_new_fifo] at h
  split_ifs at h
  obtain ⟨hf, hc, hs⟩ := gdev_ctx_new_fence_shape B vas ctx chan _ _ c0 c h
  simp [CtxShape, hf, hc, hs]

theorem gdev_ctx_new_pb_shape (B : Pscnv) (chipset : Nat) (vas : gdev_vas)
    (ctx chan ib_order : Nat) (ib_bo : pscnv_bo) (ib_start : Nat) (ib_map : Option Nat)
    (w : World) (c0 c : gdev_ctx)
    (h : (gdev_ctx_new_pb B chipset vas ctx chan ib_order ib_bo ib_start ib_map w).1
      = some (c0, c)) :
    CtxShape B ib_order 20 ib_bo.size (B.bo_size (1 <<< 20)) chan c0 := by
  simp only [gdev_ctx_new_pb] at h
  split_ifs at h
  have hs := gdev_ctx_new_fifo_shape B chipset vas ctx chan ib_order ib_bo ib_start ib_map
      _ _ _ _ _ c0 c h
  simpa using hs

theorem gdev_ctx_new_run_shape (B : Pscnv) (chipset : Nat) (vas : gdev_vas) (w : World)
    (c0 c : gdev_ctx) (h : (gdev_ctx_new_run B chipset vas w).1 = some (c0, c)) :
    CtxShape B 9 20 (B.bo_size (8 <<< 9)) (B.bo_size (1 <<< 20)) c0.pctx c0 := by
  simp only [gdev_ctx_new_run] at h
  split_ifs at h
  have hs := gdev_ctx_new_pb_shape B chipset vas _ _ _ _ _ _ _ c0 c h
  have hc : c0.pctx = _ := hs.2.2.2.2.2.2.2.2.2.2.2.2.2.2
  rw [hc]
  simpa using hs

/-! ## The stages of `gdev_raw_ctx_new` -/

theorem true_benign : Benign (fun _ => True) :=
  ⟨fun _ => trivial, fun _ => trivial, fun _ => trivial⟩

theorem nvrm_bo_create_cases (N : User.Nvrm) (size sysram : Nat) (w : World) :
    (N.ok w.trace (Req.nvrm_bo_create size sysram) = false ∧
      User.nvrm_bo_create N size sysram w =
        (none, w.refuse (Req.nvrm_bo_create size sysram))) ∨
    User.nvrm_bo_create N size sysram w =
      (some { id := w.next, size := size, sysram := sysram, mmap := none },
       w.acquire (Res.bo w.next size sysram)) := by
  unfold User.nvrm_bo_create
  split_ifs with h
  · exact Or.inr rfl
  · exact Or.inl ⟨by simpa using h, rfl⟩

theorem Unwinding.bo_destroy {P : Ev → Prop} {R : Prop} {w0 w : World} {s : List Res}
    (hP : Benign P) (bo : User.nvrm_bo) (h : Unwinding P R w0 w (bo.stack ++ s)) :
    Unwinding P R w0 (User.nvrm_bo_destroy bo w) s := by
  unfold User.nvrm_bo_destroy
  unfold User.nvrm_bo.stack hostStack at h
  cases hm : bo.mmap with
  | none =>
    rw [hm] at h
    exact Unwinding.release hP _ (by simpa using h)
  | some p =>
    rw [hm] at h
    exact Unwinding.release hP _ (Unwinding.release hP _ (by simpa using h))

theorem Unwinding.channel_destroy {P : Ev → Prop} {R : Prop} {w0 w : World} {s : List Res}
    (hP : Benign P) (chan : User.nvrm_channel) (h : Unwinding P R w0 w (chan.stack ++ s)) :
    Unwinding P R w0 (User.nvrm_channel_destroy chan w) s := by
  unfold User.nvrm_channel_destroy
  unfold User.nvrm_channel.stack regsStack engStack at h
  cases hr : chan.regs with
  | none =>
    rw [hr] at h
    cases he : chan.eng with
    | false =>
      rw [he] at h
      exact Unwinding.release hP _ (by simpa using h)
    | true =>
      rw [he] at h
      exact Unwinding.release hP _ (Unwinding.release hP _ (by simpa using h))
  | some p =>
    rw [hr] at h
    cases he : chan.eng with
    | false =>
      rw [he] at h
      exact Unwinding.release hP _ (Unwinding.release hP _ (by simpa using h))
    | true =>
      rw [he] at h
      exact Unwinding.release hP _ (Unwinding.release hP _
        (Unwinding.release hP _ (by simpa using h)))

theorem Holding.host_map {P : Ev → Prop} {w0 w : World} {s : List Res} (hP : Benign P)
    (N : User.Nvrm) (bo : User.nvrm_bo) (hm : bo.mmap = none)
    (h : Holding P w0 w (bo.res :: s)) :
    Holding P w0 (User.nvrm_bo_host_map N bo w).2.2
      ((User.nvrm_bo_host_map N bo w).2.1.stack ++ s) := by
  unfold User.nvrm_bo_host_map
  split_ifs
  · simpa [User.nvrm_bo.stack, hostStack, User.nvrm_bo.res] using h.acquire hP (Res.hostmap bo.id)
  · simpa [User.nvrm_bo.stack, hostStack, hm] using
      h.refuseMap hP (Req.nvrm_bo_host_map bo.id) rfl

theorem Holding.map_regs {P : Ev → Prop} {w0 w : World} {s : List Res} (hP : Benign P)
    (N : User.Nvrm) (chan : User.nvrm_channel) (he : chan.eng = true) (hr : chan.regs = none)
    (h : Holding P w0 w (Res.eng chan.id :: Res.chan chan.id :: s)) :
    Holding P w0 (User.nvrm_channel_host_map_regs N chan w).2.2
      ((User.nvrm_channel_host_map_regs N chan w).2.1.stack ++ s) := by
  unfold User.nvrm_channel_host_map_regs
  split_ifs
  · simpa [User.nvrm_channel.stack, regsStack, engStack, he] using
      h.acquire hP (Res.regs chan.id)
  · simpa [User.nvrm_channel.stack, regsStack, engStack, he, hr] using
      h.refuseMap hP (Req.nvrm_channel_host_map_regs chan.id) rfl

theorem raw_fail_ib_unw {P : Ev → Prop} {R : Prop} {w0 w : World} (hP : Benign P)
    (ctx : Nat) (h : Unwinding P R w0 w [Res.record ctx]) :
    Unwinding P R w0 (User.fail_ib ctx w) [] :=
  Unwinding.release hP _ h

theorem raw_fail_pb_unw {P : Ev → Prop} {R : Prop} {w0 w : World} (hP : Benign P)
    (ctx : Nat) (ib_bo : User.nvrm_bo)
    (h : Unwinding P R w0 w (ib_bo.stack ++ [Res.record ctx])) :
    Unwinding P R w0 (User.fail_pb ctx ib_bo w) [] :=
  raw_fail_ib_unw hP ctx (Unwinding.bo_destroy hP ib_bo h)

theorem raw_fail_chan_unw {P : Ev → Prop} {R : Prop} {w0 w : World} (hP : Benign P)
    (ctx : Nat) (ib_bo pb_bo : User.nvrm_bo)
    (h : Unwinding P R w0 w (pb_bo.stack ++ (ib_bo.stack ++ [Res.record ctx]))) :
    Unwinding P R w0 (User.fail_chan ctx ib_bo pb_bo w) [] :=
  raw_fail_pb_unw hP ctx ib_bo (Unwinding.bo_destroy hP pb_bo h)

theorem raw_fail_eng_unw {P : Ev → Prop} {R : Prop} {w0 w : World} (hP : Benign P)
    (ctx : Nat) (ib_bo pb_bo : User.nvrm_bo) (chan : User.nvrm_channel)
    (h : Unwinding P R w0 w
      (chan.stack ++ (pb_bo.stack ++ (ib_bo.stack ++ [Res.record ctx])))) :
    Unwinding P R w0 (User.fail_eng ctx ib_bo pb_bo chan w) [] :=
  raw_fail_chan_unw hP ctx ib_bo pb_bo (Unwinding.channel_destroy hP chan h)

theorem raw_fail_notify_unw {P : Ev → Prop} {R : Prop} {w0 w : World} (hP : Benign P)
    (ctx : Nat) (ib_bo pb_bo : User.nvrm_bo) (chan : User.nvrm_channel)
    (fence_bo : User.nvrm_bo)
    (h : Unwinding P R w0 w
      (fence_bo.stack ++ (chan.stack ++ (pb_bo.stack ++ (ib_bo.stack ++ [Res.record ctx]))))) :
    Unwinding P R w0 (User.fail_notify_alloc ctx ib_bo pb_bo chan fence_bo w) [] :=
  raw_fail_eng_unw hP ctx ib_bo pb_bo chan (Unwinding.bo_destroy hP fence_bo h)

theorem gdev_raw_ctx_new_notify_outcome (N : User.Nvrm) (ctx : Nat) (fifo : User.gdev_fifo)
    (chan : User.nvrm_channel) (fence : User.gdev_fence) (w0 w : World)
    (h : Holding (fun _ => True) w0 w
      (fence.bo.stack ++ (chan.stack ++ (fifo.pb_bo.stack ++
        (fifo.ib_bo.stack ++ [Res.record ctx]))))) :
    RawCtxNewOutcome w0 (User.gdev_raw_ctx_new_notify N ctx fifo chan fence w) := by
  have hP := true_benign
  unfold User.gdev_raw_ctx_new_notify
  rcases nvrm_bo_create_cases N 64 0 w with ⟨_, hc⟩ | hc
  · rw [hc]
    exact raw_fail_notify_unw hP _ _ _ _ _ (h.fail hP _ _ rfl)
  · rw [hc]
    exact h.acquire hP _

theorem gdev_raw_ctx_new_fence_outcome (N : User.Nvrm) (ctx : Nat) (fifo : User.gdev_fifo)
    (chan : User.nvrm_channel) (w0 w : World)
    (h : Holding (fun _ => True) w0 w
      (chan.stack ++ (fifo.pb_bo.stack ++ (fifo.ib_bo.stack ++ [Res.record ctx])))) :
    RawCtxNewOutcome w0 (User.gdev_raw_ctx_new_fence N ctx fifo chan w) := by
  have hP := true_benign
  unfold User.gdev_raw_ctx_new_fence
  rcases nvrm_bo_create_cases N N.GDEV_FENCE_BUF_SIZE 1 w with ⟨_, hc⟩ | hc
  · rw [hc]
    exact raw_fail_eng_unw hP _ _ _ _ (h.fail hP _ _ rfl)
  · rw [hc]
    exact gdev_raw_ctx_new_notify_outcome N ctx fifo chan _ w0 _
      (Holding.host_map hP N _ rfl (h.acquire hP _))

theorem gdev_raw_ctx_new_chan_outcome (N : User.Nvrm) (chipset ctx : Nat)
    (fifo : User.gdev_fifo) (w0 w : World)
    (h : Holding (fun _ => True) w0 w
      (fifo.pb_bo.stack ++ (fifo.ib_bo.stack ++ [Res.record ctx]))) :
    RawCtxNewOutcome w0 (User.gdev_raw_ctx_new_chan N chipset ctx fifo w) := by
  have hP := true_benign
  simp only [User.gdev_raw_ctx_new_chan, User.nvrm_eng_create]
  split_ifs with h1 h2
  · exact raw_fail_chan_unw hP _ _ _ (h.fail hP _ _ rfl)
  · exact gdev_raw_ctx_new_fence_outcome N ctx _ _ w0 _
      (Holding.map_regs hP N _ rfl rfl ((h.acquire hP _).acquire hP _))
  · exact raw_fail_eng_unw hP _ _ _ _ ((h.acquire hP _).fail hP _ _ rfl)

theorem gdev_raw_ctx_new_pb_outcome (N : User.Nvrm) (chipset ctx ib_order : Nat)
    (ib_bo : User.nvrm_bo) (ib_map : Option Nat) (w0 w : World)
    (h : Holding (fun _ => True) w0 w (ib_bo.stack ++ [Res.record ctx])) :
    RawCtxNewOutcome w0 (User.gdev_raw_ctx_new_pb N chipset ctx ib_order ib_bo ib_map w) := by
  have hP := true_benign
  unfold User.gdev_raw_ctx_new_pb
  rcases nvrm_bo_create_cases N (1 <<< 18) 1 w with ⟨_, hc⟩ | hc
  · simp only [hc]
    exact raw_fail_pb_unw hP _ _ (h.fail hP _ _ rfl)
  · simp only [hc]
    exact gdev_raw_ctx_new_chan_outcome N chipset ctx _ w0 _
      (Holding.host_map hP N _ rfl (h.acquire hP _))

theorem gdev_raw_ctx_new_outcome (N : User.Nvrm) (chipset : Nat) (w : World) :
    RawCtxNewOutcome w (User.gdev_raw_ctx_new N chipset w) := by
  have hP := true_benign
  have h := Holding.refl (fun _ => True) w
  unfold User.gdev_raw_ctx_new
  split_ifs with h1
  · exact h.fail hP _ _ rfl
  · rcases nvrm_bo_create_cases N (8 <<< 10) 1 (w.acquire (Res.record w.next))
      with ⟨_, hc⟩ | hc
    · simp only [hc]
      exact raw_fail_ib_unw hP _ ((h.acquire hP _).fail hP _ _ rfl)
    · simp only [hc]
      exact gdev_raw_ctx_new_pb_outcome N chipset _ _ _ _ w _
        (Holding.host_map hP N _ rfl ((h.acquire hP _).acquire hP _))

/-! ### The fields of the context built by `gdev_raw_ctx_new` -/

theorem nvrm_bo_host_map_size (N : User.Nvrm) (bo : User.nvrm_bo) (w : World) :
    (User.nvrm_bo_host_map N bo w).2.1.size = bo.size := by
  unfold User.nvrm_bo_host_map
  split_ifs <;> rfl

theorem gdev_raw_ctx_new_notify_shape (N : User.Nvrm) (ctx : Nat) (fifo : User.gdev_fifo)
    (chan : User.nvrm_channel) (fence : User.gdev_fence) (w : World) (c : User.gdev_ctx)
    (h : (User.gdev_raw_ctx_new_notify N ctx fifo chan fence w).1 = some c) :
    c.fifo = fifo ∧ c.fence = fence ∧ c.notify.bo.mmap = none := by
  unfold User.gdev_raw_ctx_new_notify at h
  rcases nvrm_bo_create_cases N 64 0 w with ⟨_, hc⟩ | hc
  · rw [hc] at h
    simp at h
  · rw [hc] at h
    simp only [Option.some.injEq] at h
    subst h
    exact ⟨rfl, rfl, rfl⟩

theorem gdev_raw_ctx_new_fence_shape (N : User.Nvrm) (ctx : Nat) (fifo : User.gdev_fifo)
    (chan : User.nvrm_channel) (w : World) (c : User.gdev_ctx)
    (h : (User.gdev_raw_ctx_new_fence N ctx fifo chan w).1 = some c) :
    c.fifo = fifo ∧ c.fence.seq = 0 ∧ c.notify.bo.mmap = none := by
  unfold User.gdev_raw_ctx_new_fence at h
  rcases nvrm_bo_create_cases N N.GDEV_FENCE_BUF_SIZE 1 w with ⟨_, hc⟩ | hc
  · rw [hc] at h
    simp at h
  · rw [hc] at h
    obtain ⟨h1, h2, h3⟩ := gdev_raw_ctx_new_notify_shape N ctx fifo chan _ _ c h
    exact ⟨h1, by rw [h2], h3⟩

theorem gdev_raw_ctx_new_chan_shape (N : User.Nvrm) (chipset ctx : Nat)
    (fifo : User.gdev_fifo) (w : World) (c : User.gdev_ctx)
    (h : (User.gdev_raw_ctx_new_chan N chipset ctx fifo w).1 = some c) :
    (∃ regs, c.fifo = { fifo with regs := regs }) ∧ c.fence.seq = 0 ∧
    c.notify.bo.mmap = none := by
  simp only [User.gdev_raw_ctx_new_chan, User.nvrm_eng_create] at h
  split_ifs at h
  obtain ⟨h1, h2, h3⟩ := gdev_raw_ctx_new_fence_shape N ctx _ _ _ c h
  exact ⟨⟨_, h1⟩, h2, h3⟩

theorem gdev_raw_ctx_new_pb_shape (N : User.Nvrm) (chipset ctx ib_order : Nat)
    (ib_bo : User.nvrm_bo) (ib_map : Option Nat) (w : World) (c : User.gdev_ctx)
    (h : (User.gdev_raw_ctx_new_pb N chipset ctx ib_order ib_bo ib_map w).1 = some c) :
    RawCtxShape ib_order 18 ib_bo.size c := by
  unfold User.gdev_raw_ctx_new_pb at h
  rcases nvrm_bo_create_cases N (1 <<< 18) 1 w with ⟨_, hc⟩ | hc
  · simp only [hc] at h
    simp at h
  · simp only [hc] at h
    obtain ⟨⟨regs, h1⟩, h2, h3⟩ := gdev_raw_ctx_new_chan_shape N chipset ctx _ _ c h
    simp [RawCtxShape, h1, h2, h3, nvrm_bo_host_map_size]

theorem gdev_raw_ctx_new_shape (N : User.Nvrm) (chipset : Nat) (w : World)
    (c : User.gdev_ctx) (h : (User.gdev_raw_ctx_new N chipset w).1 = some c) :
    RawCtxShape 10 18 (8 <<< 10) c := by
  unfold User.gdev_raw_ctx_new at h
  split_ifs at h
  rcases nvrm_bo_create_cases N (8 <<< 10) 1 (w.acquire (Res.record w.next))
    with ⟨_, hc⟩ | hc
  · simp only [hc] at h
    simp at h
  · simp only [hc] at h
    have hs := gdev_raw_ctx_new_pb_shape N chipset _ _ _ _ _ c h
    simpa [nvrm_bo_host_map_size] using hs

/-! ## Context creation is all-or-nothing -/

theorem Unwinding.final {P : Ev → Prop} {R : Prop} {w0 w : World}
    (h : Unwinding P R w0 w []) :
    w.live = w0.live ∧ rels (w0.since w) = (acqs (w0.since w)).reverse ∧
    (∀ e ∈ w0.since w, P e) ∧
    (R ∨ ∃ q, Ev.refused q ∈ w0.since w ∧ q.isHostMap = false) := by
  obtain ⟨hl, evs, ht, hr, hp, hq⟩ := h
  rw [since_eq ht]
  exact ⟨by simpa using hl, by simpa using hr, hp, hq⟩

theorem Holding.summary {P : Ev → Prop} {w0 w : World} {s : List Res}
    (h : Holding P w0 w s) :
    w.live = s ++ w0.live ∧ acqs (w0.since w) = s.reverse ∧ rels (w0.since w) = [] ∧
    (∀ e ∈ w0.since w, P e) ∧ ∀ q, Ev.refused q ∈ w0.since w → q.isHostMap = true := by
  obtain ⟨hl, evs, ht, ha, hr, hp, hq⟩ := h
  rw [since_eq ht]
  exact ⟨hl, ha, hr, hp, hq⟩

theorem since_call (w0 w : World) (e : Ev) (h : w0.trace <+: w.trace) :
    w0.since (w.call e) = w0.since w ++ [e] := by
  obtain ⟨evs, ht⟩ := h
  simp [World.since, World.call, ← ht]

theorem Holding.prefix {P : Ev → Prop} {w0 w : World} {s : List Res}
    (h : Holding P w0 w s) : w0.trace <+: w.trace := by
  obtain ⟨_, evs, ht, _⟩ := h
  exact ⟨evs, ht.symm⟩

/-- C5: context creation is all-or-nothing in both backends.  `gdev_ctx_new`
returns no context exactly when the chipset is not an nvc0 one or some backend
step other than a host mapping was refused, and `gdev_raw_ctx_new` exactly when
such a step was refused.  Whenever no context is returned the live resources
are those from before the call and what was obtained has been given back in
the exact reverse order (in user space: the records, buffers and channels the
adapter releases by name; what hangs off them goes with them). -/
theorem ctx_new_all_or_nothing (B : Pscnv) (N : User.Nvrm) (chipset : Nat)
    (vas : gdev_vas) (w : World) :
    (match gdev_ctx_new B chipset vas w with
     | (none, w') =>
        w'.live = w.live ∧ rels (w.since w') = (acqs (w.since w')).reverse ∧
        (chipset &&& 0xf0 ≠ 0xc0 ∨
          ∃ q, Ev.refused q ∈ w.since w' ∧ q.isHostMap = false)
     | (some _, w') =>
        chipset &&& 0xf0 = 0xc0 ∧
        ∀ q, Ev.refused q ∈ w.since w' → q.isHostMap = true) ∧
    (match User.gdev_raw_ctx_new N chipset w with
     | (none, w') =>
        w'.live = w.live ∧
        (rels (w.since w')).filter Res.isOwner =
          ((acqs (w.since w')).filter Res.isOwner).reverse ∧
        ∃ q, Ev.refused q ∈ w.since w' ∧ q.isHostMap = false
     | (some _, w') =>
        ∀ q, Ev.refused q ∈ w.since w' → q.isHostMap = true) := by
  constructor
  · have h := gdev_ctx_new_run_outcome B chipset vas w
    unfold gdev_ctx_new
    generalize gdev_ctx_new_run B chipset vas w = r at h
    rcases r with ⟨_ | ⟨c0, c⟩, w'⟩
    · obtain ⟨h1, h2, _, h4⟩ := Unwinding.final h
      exact ⟨h1, h2, h4⟩
    · obtain ⟨hchip, _, w1, hh, rfl⟩ := h
      refine ⟨hchip, ?_⟩
      intro q hq
      rw [since_call _ _ _ hh.prefix] at hq
      rcases List.mem_append.1 hq with h1 | h1
      · exact hh.summary.2.2.2.2 q h1
      · simp at h1
  · have h := gdev_raw_ctx_new_outcome N chipset w
    generalize User.gdev_raw_ctx_new N chipset w = r at h
    rcases r with ⟨_ | c, w'⟩
    · obtain ⟨h1, h2, _, h4⟩ := Unwinding.final h
      refine ⟨h1, ?_, ?_⟩
      · rw [h2, List.filter_reverse]
      · simpa using h4
    · exact h.summary.2.2.2.2

/-- C10: on a chipset that is not an nvc0 one (`(chipset & 0xf0) != 0xc0`),
`gdev_ctx_new` returns no context, logs neither `nvc0_fifo_ctrl_ptr` (the only
assignment to `fifo.regs`) nor `compute->init`, and has given back, in reverse
order, everything it obtained, leaving the live resources as before.  On an
nvc0 chipset with every backend step succeeding it returns a context whose
`fifo.regs` is `nvc0_fifo_ctrl_ptr` of the channel it created. -/
theorem gdev_ctx_new_chipset (B : Pscnv) (chipset : Nat) (vas : gdev_vas) (w : World) :
    (chipset &&& 0xf0 ≠ 0xc0 →
      (gdev_ctx_new B chipset vas w).1 = none ∧
      (gdev_ctx_new B chipset vas w).2.live = w.live ∧
      rels (w.since (gdev_ctx_new B chipset vas w).2) =
        (acqs (w.since (gdev_ctx_new B chipset vas w).2)).reverse ∧
      (∀ chan, Ev.nvc0_fifo_ctrl_ptr chan ∉ w.since (gdev_ctx_new B chipset vas w).2) ∧
      Ev.compute_init ∉ w.since (gdev_ctx_new B chipset vas w).2) ∧
    (chipset &&& 0xf0 = 0xc0 ∧ (∀ tr q, B.ok tr q = true) →
      ∃ c, (gdev_ctx_new B chipset vas w).1 = some c ∧
        c.fifo.regs = B.nvc0_fifo_ctrl_ptr c.pctx ∧
        Ev.acq (Res.chan c.pctx) ∈ w.since (gdev_ctx_new B chipset vas w).2) := by
  constructor
  · intro hchip
    have h := gdev_ctx_new_run_outcome B chipset vas w
    unfold gdev_ctx_new
    generalize gdev_ctx_new_run B chipset vas w = r at h
    rcases r with ⟨_ | ⟨c0, c⟩, w'⟩
    · obtain ⟨h1, h2, h3, _⟩ := Unwinding.final h
      refine ⟨rfl, h1, h2, ?_, ?_⟩
      · intro chan hmem
        exact (h3 _ hmem).2 hchip chan rfl
      · intro hmem
        exact (h3 _ hmem).1 rfl
    · exact absurd h.1 hchip
  · rintro ⟨hchip, hall⟩
    have h := gdev_ctx_new_run_outcome B chipset vas w
    have hs := gdev_ctx_new_run_shape B chipset vas w
    have hsome : (gdev_ctx_new_run B chipset vas w).1.isSome = true := by
      simp [gdev_ctx_new_run, gdev_ctx_new_pb, gdev_ctx_new_fifo, gdev_ctx_new_fence,
        hall, hchip]
    unfold gdev_ctx_new
    generalize gdev_ctx_new_run B chipset vas w = r at h hs hsome
    rcases r with ⟨_ | ⟨c0, c⟩, w'⟩
    · simp at hsome
    · obtain ⟨_, hc, w1, hh, rfl⟩ := h
      have hshape := hs c0 c rfl
      refine ⟨c, rfl, ?_, ?_⟩
      · rw [hc]
        exact hshape.2.2.2.2.2.2.2.2.2.2.2.2.2.1
      · rw [since_call _ _ _ hh.prefix, hc]
        apply List.mem_append_left
        have hacq : Res.chan c0.pctx ∈ acqs (w.since w1) := by
          rw [hh.summary.2.1]
          simp [gdev_ctx.stack, pbStack, ibStack]
        exact mem_acqs hacq

/-! ## Destroying a context -/

theorem gdev_ctx_new_some (B : Pscnv) (chipset : Nat) (vas : gdev_vas) (w w' : World)
    (c : gdev_ctx) (h : gdev_ctx_new B chipset vas w = (some c, w')) :
    w'.live = c.stack ++ w.live ∧ acqs (w.since w') = c.stack.reverse ∧
    rels (w.since w') = [] := by
  have ho := gdev_ctx_new_run_outcome B chipset vas w
  unfold gdev_ctx_new at h
  generalize gdev_ctx_new_run B chipset vas w = r at h ho
  rcases r with ⟨_ | ⟨c0, c1⟩, w1⟩
  · simp at h
  · simp only [Option.map_some', Prod.mk.injEq, Option.some.injEq] at h
    obtain ⟨rfl, rfl⟩ := h
    obtain ⟨_, hc, w2, hh, rfl⟩ := ho
    have hst : c1.stack = c0.stack := by rw [hc]; rfl
    obtain ⟨h1, h2, h3, _⟩ := hh.summary
    rw [since_call _ _ _ hh.prefix, hst]
    exact ⟨h1, by simp [acqs, h2], by simp [rels, h3]⟩

theorem gdev_raw_ctx_new_some (N : User.Nvrm) (chipset : Nat) (w w' : World)
    (c : User.gdev_ctx) (h : User.gdev_raw_ctx_new N chipset w = (some c, w')) :
    w'.live = c.stack ++ w.live ∧ acqs (w.since w') = c.stack.reverse ∧
    rels (w.since w') = [] ∧ c.notify.bo.mmap = none := by
  have ho := gdev_raw_ctx_new_outcome N chipset w
  have hs := gdev_raw_ctx_new_shape N chipset w c (by rw [h])
  rw [h] at ho
  obtain ⟨h1, h2, h3, _⟩ := Holding.summary ho
  exact ⟨h1, h2, h3, hs.2.2.2.2.2.2.2.2.2.2.2.2.2⟩

theorem erase_second (a b : Res) (l : List Res) : (a :: b :: l).erase b = a :: l := by
  by_cases h : a = b
  · subst h; simp
  · rw [List.erase_cons_tail (by simpa using h), List.erase_cons_head]

theorem gdev_ctx_free_spec (c : gdev_ctx) (w0 w : World) (hl : w.live = c.stack ++ w0.live) :
    (gdev_ctx_free c w).live = w0.live ∧
    rels (w.since (gdev_ctx_free c w)) = c.stack ∧
    acqs (w.since (gdev_ctx_free c w)) = [] := by
  rcases hpb : c.fifo.pb_map with _ | p <;> rcases hib : c.fifo.ib_map with _ | q <;>
    simp [gdev_ctx_free, vunmap, kunmap, World.release, World.since, rels, acqs,
      gdev_ctx.stack, pbStack, ibStack, vmapStack, hl, hpb, hib]

theorem gdev_raw_ctx_free_spec (c : User.gdev_ctx) (w0 w : World)
    (hl : w.live = c.stack ++ w0.live) (hn : c.notify.bo.mmap = none) :
    (User.gdev_raw_ctx_free c w).live = w0.live ∧
    rels (w.since (User.gdev_raw_ctx_free c w)) =
      c.fence.bo.stack ++ (c.notify.bo.stack ++ (c.pctx.stack ++
        (c.fifo.pb_bo.stack ++ (c.fifo.ib_bo.stack ++ [Res.record c.id])))) ∧
    acqs (w.since (User.gdev_raw_ctx_free c w)) = [] := by
  rcases hf : c.fence.bo.mmap with _ | f <;> rcases hp : c.fifo.pb_bo.mmap with _ | p <;>
    rcases hi : c.fifo.ib_bo.mmap with _ | i <;> rcases hr : c.pctx.regs with _ | r <;>
    rcases he : c.pctx.eng with _ | _ <;>
    simp [User.gdev_raw_ctx_free, User.nvrm_bo_destroy, User.nvrm_channel_destroy,
      World.release, World.since, rels, acqs, User.gdev_ctx.stack, User.nvrm_bo.stack,
      User.nvrm_channel.stack, hostStack, regsStack, engStack, User.nvrm_bo.res,
      erase_second, hl, hn, hf, hp, hi, hr, he]

@[simp] theorem filter_owner_bo_stack (bo : User.nvrm_bo) :
    bo.stack.filter Res.isOwner = [bo.res] := by
  rcases h : bo.mmap with _ | p <;>
    simp [User.nvrm_bo.stack, hostStack, h, Res.isOwner, User.nvrm_bo.res]

@[simp] theorem filter_owner_chan_stack (chan : User.nvrm_channel) :
    chan.stack.filter Res.isOwner = [Res.chan chan.id] := by
  rcases hr : chan.regs with _ | r <;> rcases he : chan.eng with _ | _ <;>
    simp [User.nvrm_channel.stack, regsStack, engStack, hr, he, Res.isOwner]

/-- C6: after a successful `gdev_ctx_new` (resp. `gdev_raw_ctx_new`), the
matching destroy leaves the live resources exactly as they were before the
creation; it obtains nothing, what it gives back is a rearrangement of what the
creation obtained (each resource once), and within each object the host
mapping goes first, then the VAS mapping, then the buffer (in user space the
mapping goes with `nvrm_bo_destroy`, before the buffer). -/
theorem ctx_free_releases_everything (B : Pscnv) (N : User.Nvrm) (chipset : Nat)
    (vas : gdev_vas) (w : World) :
    (∀ c w', gdev_ctx_new B chipset vas w = (some c, w') →
      (gdev_ctx_free c w').live = w.live ∧
      acqs (w'.since (gdev_ctx_free c w')) = [] ∧
      (rels (w'.since (gdev_ctx_free c w'))).Perm (acqs (w.since w')) ∧
      rels (w'.since (gdev_ctx_free c w')) =
        Res.kmap c.fence.bo.id :: Res.vasmap c.fence.addr :: c.fence.bo.res ::
          (vmapStack c.fifo.pb_map ++ (Res.vasmap c.fifo.pb_base :: c.fifo.pb_bo.res ::
            (vmapStack c.fifo.ib_map ++ [Res.vasmap c.fifo.ib_base, c.fifo.ib_bo.res,
              Res.chan c.pctx, Res.record c.id])))) ∧
    (∀ c w', User.gdev_raw_ctx_new N chipset w = (some c, w') →
      (User.gdev_raw_ctx_free c w').live = w.live ∧
      acqs (w'.since (User.gdev_raw_ctx_free c w')) = [] ∧
      (rels (w'.since (User.gdev_raw_ctx_free c w'))).Perm (acqs (w.since w')) ∧
      rels (w'.since (User.gdev_raw_ctx_free c w')) =
        hostStack c.fence.bo.mmap ++ [c.fence.bo.res] ++
          (hostStack c.notify.bo.mmap ++ [c.notify.bo.res] ++
            (regsStack c.pctx ++ (engStack c.pctx ++ [Res.chan c.pctx.id]) ++
              (hostStack c.fifo.pb_bo.mmap ++ [c.fifo.pb_bo.res] ++
                (hostStack c.fifo.ib_bo.mmap ++ [c.fifo.ib_bo.res] ++
                  [Res.record c.id]))))) := by
  constructor
  · intro c w' h
    obtain ⟨h1, h2, _⟩ := gdev_ctx_new_some B chipset vas w w' c h
    obtain ⟨f1, f2, f3⟩ := gdev_ctx_free_spec c w w' h1
    refine ⟨f1, f3, ?_, f2⟩
    rw [f2, h2]
    exact (List.reverse_perm _).symm
  · intro c w' h
    obtain ⟨h1, h2, _, h4⟩ := gdev_raw_ctx_new_some N chipset w w' c h
    obtain ⟨f1, f2, f3⟩ := gdev_raw_ctx_free_spec c w w' h1 h4
    refine ⟨f1, f3, ?_, f2⟩
    rw [f2, h2]
    refine List.Perm.trans ?_ (List.reverse_perm _).symm
    unfold User.gdev_ctx.stack
    rw [← List.append_assoc, ← List.append_assoc (User.nvrm_bo.stack c.notify.bo)]
    exact List.Perm.append_right _ List.perm_append_comm

/-- C6 on all-succeeding backends: a context is created, and destroying it
leaves no resource live. -/
theorem ctx_free_releases_everything_witness :
    (∃ c w', gdev_ctx_new pscnvOk 0xc0 ⟨7⟩ World.init = (some c, w') ∧
      (gdev_ctx_free c w').live = World.init.live ∧
      (rels (w'.since (gdev_ctx_free c w'))).Perm (acqs (World.init.since w'))) ∧
    (∃ c w', User.gdev_raw_ctx_new User.nvrmOk 0xc0 World.init = (some c, w') ∧
      (User.gdev_raw_ctx_free c w').live = World.init.live ∧
      (rels (w'.since (User.gdev_raw_ctx_free c w'))).Perm (acqs (World.init.since w'))) :=
  ⟨⟨_, _, rfl,
      ((ctx_free_releases_everything pscnvOk User.nvrmOk 0xc0 ⟨7⟩ World.init).1 _ _ rfl).1,
      ((ctx_free_releases_everything pscnvOk User.nvrmOk 0xc0 ⟨7⟩ World.init).1 _ _
        rfl).2.2.1⟩,
   ⟨_, _, rfl,
      ((ctx_free_releases_everything pscnvOk User.nvrmOk 0xc0 ⟨7⟩ World.init).2 _ _ rfl).1,
      ((ctx_free_releases_everything pscnvOk User.nvrmOk 0xc0 ⟨7⟩ World.init).2 _ _
        rfl).2.2.1⟩⟩

/-- C7 (as stated, refuted): on an all-succeeding NVRM backend the records,
buffers and channel that `gdev_raw_ctx_free` releases do not come in the
reverse of the order in which `gdev_raw_ctx_new` obtained them: the fence
buffer was obtained before the notification buffer and is also released before
it. -/
theorem gdev_raw_ctx_free_not_reverse :
    ∃ c w', User.gdev_raw_ctx_new User.nvrmOk 0xc0 World.init = (some c, w') ∧
      (acqs (World.init.since w')).filter Res.isOwner =
        [Res.record 0, Res.bo 1 8192 1, Res.bo 3 262144 1, Res.chan 5,
         Res.bo 8 65536 1, Res.bo 10 64 0] ∧
      (rels (w'.since (User.gdev_raw_ctx_free c w'))).filter Res.isOwner =
        [Res.bo 8 65536 1, Res.bo 10 64 0, Res.chan 5, Res.bo 3 262144 1,
         Res.bo 1 8192 1, Res.record 0] ∧
      (rels (w'.since (User.gdev_raw_ctx_free c w'))).filter Res.isOwner ≠
        ((acqs (World.init.since w')).filter Res.isOwner).reverse :=
  ⟨_, _, rfl, by decide, by decide, by decide⟩

/-- C7 (amended): `gdev_ctx_free` releases exactly what `gdev_ctx_new` obtained,
in the exact reverse order, and a failing `gdev_ctx_new` releases what it had
obtained in the exact reverse order too.  `gdev_raw_ctx_new` obtains context
record, IB, PB, channel, fence buffer, notification buffer in this order;
`gdev_raw_ctx_free` releases fence buffer, notification buffer, channel, PB, IB,
context record: the reverse order except that the fence buffer goes before the
notification buffer; a failing `gdev_raw_ctx_new` releases what it had obtained
in the exact reverse order. -/
theorem ctx_free_release_order (B : Pscnv) (N : User.Nvrm) (chipset : Nat)
    (vas : gdev_vas) (w : World) :
    (∀ c w', gdev_ctx_new B chipset vas w = (some c, w') →
      rels (w'.since (gdev_ctx_free c w')) = (acqs (w.since w')).reverse) ∧
    (∀ w', gdev_ctx_new B chipset vas w = (none, w') →
      rels (w.since w') = (acqs (w.since w')).reverse) ∧
    (∀ c w', User.gdev_raw_ctx_new N chipset w = (some c, w') →
      (acqs (w.since w')).filter Res.isOwner =
        [Res.record c.id, c.fifo.ib_bo.res, c.fifo.pb_bo.res, Res.chan c.pctx.id,
         c.fence.bo.res, c.notify.bo.res] ∧
      (rels (w'.since (User.gdev_raw_ctx_free c w'))).filter Res.isOwner =
        [c.fence.bo.res, c.notify.bo.res, Res.chan c.pctx.id, c.fifo.pb_bo.res,
         c.fifo.ib_bo.res, Res.record c.id]) ∧
    (∀ w', User.gdev_raw_ctx_new N chipset w = (none, w') →
      (rels (w.since w')).filter Res.isOwner =
        ((acqs (w.since w')).filter Res.isOwner).reverse) := by
  refine ⟨?_, ?_, ?_, ?_⟩
  · intro c w' h
    obtain ⟨h1, h2, _⟩ := gdev_ctx_new_some B chipset vas w w' c h
    rw [(gdev_ctx_free_spec c w w' h1).2.1, h2, List.reverse_reverse]
  · intro w' h
    have ho := gdev_ctx_new_run_outcome B chipset vas w
    unfold gdev_ctx_new at h
    generalize gdev_ctx_new_run B chipset vas w = r at h ho
    rcases r with ⟨_ | ⟨c0, c1⟩, w1⟩
    · simp only [Option.map_none', Prod.mk.injEq, true_and] at h
      subst h
      exact (Unwinding.final ho).2.1
    · simp at h
  · intro c w' h
    obtain ⟨h1, h2, _, h4⟩ := gdev_raw_ctx_new_some N chipset w w' c h
    rw [(gdev_raw_ctx_free_spec c w w' h1 h4).2.1, h2]
    constructor
    · simp [List.filter_reverse, User.gdev_ctx.stack, List.filter_append, Res.isOwner]
    · simp [List.filter_append, Res.isOwner]
  · intro w' h
    have ho := gdev_raw_ctx_new_outcome N chipset w
    rw [h] at ho
    rw [(Unwinding.final ho).2.1, List.filter_reverse]

/-- C7 (amended) on all-succeeding backends. -/
theorem ctx_free_release_order_witness :
    (∃ c w', gdev_ctx_new pscnvOk 0xc0 ⟨7⟩ World.init = (some c, w') ∧
      rels (w'.since (gdev_ctx_free c w')) = (acqs (World.init.since w')).reverse) ∧
    (∃ c w', User.gdev_raw_ctx_new User.nvrmOk 0xc0 World.init = (some c, w') ∧
      (rels (w'.since (User.gdev_raw_ctx_free c w'))).filter Res.isOwner =
        [c.fence.bo.res, c.notify.bo.res, Res.chan c.pctx.id, c.fifo.pb_bo.res,
         c.fifo.ib_bo.res, Res.record c.id]) ∧
    (∃ w', gdev_ctx_new pscnvOk 0x50 ⟨7⟩ World.init = (none, w') ∧
      rels (World.init.since w') = (acqs (World.init.since w')).reverse) :=
  ⟨⟨_, _, rfl,
      (ctx_free_release_order pscnvOk User.nvrmOk 0xc0 ⟨7⟩ World.init).1 _ _ rfl⟩,
   ⟨_, _, rfl,
      ((ctx_free_release_order pscnvOk User.nvrmOk 0xc0 ⟨7⟩ World.init).2.2.1 _ _ rfl).2⟩,
   ⟨_, rfl,
      (ctx_free_release_order pscnvOk User.nvrmOk 0x50 ⟨7⟩ World.init).2.1 _ rfl⟩⟩

/-! ## The rings of a fresh context -/

/-- C8 (as stated, refuted): with a `compute->init` hook that submits its
set-up commands, the context returned by a successful `gdev_ctx_new` does not
have its rings in the initial form: `ib_put`, `pb_put` and `pb_pos` are not 0. -/
theorem gdev_ctx_new_rings_not_empty :
    (gdev_ctx_new pscnvBusy 0xc0 ⟨7⟩ World.init).1.map
        (fun c => (c.fifo.ib_get, c.fifo.ib_put, c.fifo.pb_get, c.fifo.pb_put, c.fifo.pb_pos))
      = some (0, 1, 0, 8, 8) := by
  decide

/-- C8 (amended): when `gdev_ctx_new` succeeds, the context it hands to
`compute->init` has `ib_order = 9`, `pb_order = 20`, `ib_mask = 2^ib_order - 1`,
`pb_size = 2^pb_order`, `pb_mask = pb_size - 1`, IB and PB buffers as recorded
for requests of `8 * 2^ib_order` and `pb_size` bytes, all five ring cursors 0
and all `GDEV_FENCE_COUNT` fence sequence counters 0; the context it returns
is that context with the ring cursors the hook left, so orders, masks, sizes,
buffers and fence counters are as stated.  When `gdev_raw_ctx_new` succeeds the
returned context has `ib_order = 10`, `pb_order = 18`, the same relations for
masks and sizes, buffers of `8 * 2^ib_order` and `pb_size` bytes, all five
ring cursors 0 and `fence.seq = 0`. -/
theorem ctx_new_initial_rings (B : Pscnv) (N : User.Nvrm) (chipset : Nat)
    (vas : gdev_vas) (w : World) :
    (∀ c0 c w', gdev_ctx_new_run B chipset vas w = (some (c0, c), w') →
      gdev_ctx_new B chipset vas w = (some c, w') ∧
      c = c0.setCursors (B.compute_init c0) ∧
      c0.fifo.geometry 9 20 ∧ c0.fifo.empty ∧
      c0.fifo.ib_bo.size = B.bo_size (8 * 2 ^ c0.fifo.ib_order) ∧
      c0.fifo.pb_bo.size = B.bo_size c0.fifo.pb_size ∧
      c0.fence.sequence = List.replicate B.GDEV_FENCE_COUNT 0 ∧
      c.fifo.geometry 9 20 ∧
      c.fifo.ib_bo.size = B.bo_size (8 * 2 ^ c.fifo.ib_order) ∧
      c.fifo.pb_bo.size = B.bo_size c.fifo.pb_size ∧
      c.fence.sequence = List.replicate B.GDEV_FENCE_COUNT 0) ∧
    (∀ c w', User.gdev_raw_ctx_new N chipset w = (some c, w') →
      c.fifo.geometry 10 18 ∧ c.fifo.empty ∧
      c.fifo.ib_bo.size = 8 * 2 ^ c.fifo.ib_order ∧
      c.fifo.pb_bo.size = c.fifo.pb_size ∧
      c.fence.seq = 0) := by
  constructor
  · intro c0 c w' h
    have hs := gdev_ctx_new_run_shape B chipset vas w c0 c (by rw [h])
    have ho := gdev_ctx_new_run_outcome B chipset vas w
    rw [h] at ho
    obtain ⟨_, hc, _⟩ := ho
    obtain ⟨s1, s2, s3, s4, s5, s6, s7, s8, s9, s10, s11, s12, s13, _, _⟩ := hs
    have hg : c0.fifo.geometry 9 20 := by
      refine ⟨s1, s2, ?_, ?_, ?_⟩
      · rw [s3, s1]; rfl
      · rw [s4, s2]; rfl
      · rw [s5, s4]
    have hi : c0.fifo.ib_bo.size = B.bo_size (8 * 2 ^ c0.fifo.ib_order) := by
      rw [s6, s1]; rfl
    have hp : c0.fifo.pb_bo.size = B.bo_size c0.fifo.pb_size := by
      rw [s7, s4]
    refine ⟨by simp [gdev_ctx_new, h], hc, hg, ⟨s8, s9, s10, s11, s12⟩, hi, hp, s13, ?_, ?_,
      ?_, ?_⟩
    · rw [hc]; exact hg
    · rw [hc]; exact hi
    · rw [hc]; exact hp
    · rw [hc]; exact s13
  · intro c w' h
    have hs := gdev_raw_ctx_new_shape N chipset w c (by rw [h])
    obtain ⟨s1, s2, s3, s4, s5, s6, s7, s8, s9, s10, s11, s12, s13, _⟩ := hs
    refine ⟨⟨s1, s2, ?_, ?_, ?_⟩, ⟨s8, s9, s10, s11, s12⟩, ?_, ?_, s13⟩
    · rw [s3, s1]; rfl
    · rw [s4, s2]; rfl
    · rw [s5, s4]
    · rw [s6, s1]; rfl
    · rw [s7, s4]

/-- C8 (amended) on all-succeeding backends, the kernel one with a hook that
submits commands. -/
theorem ctx_new_initial_rings_witness :
    (∃ c0 c w', gdev_ctx_new_run pscnvBusy 0xc0 ⟨7⟩ World.init = (some (c0, c), w') ∧
      c0.fifo.geometry 9 20 ∧ c0.fifo.empty ∧ c.fifo.geometry 9 20) ∧
    (∃ c w', User.gdev_raw_ctx_new User.nvrmOk 0xc0 World.init = (some c, w') ∧
      c.fifo.geometry 10 18 ∧ c.fifo.empty ∧ c.fence.seq = 0) :=
  ⟨⟨_, _, _, rfl,
      ((ctx_new_initial_rings pscnvBusy User.nvrmOk 0xc0 ⟨7⟩ World.init).1 _ _ _ rfl).2.2.1,
      ((ctx_new_initial_rings pscnvBusy User.nvrmOk 0xc0 ⟨7⟩ World.init).1 _ _ _ rfl).2.2.2.1,
      ((ctx_new_initial_rings pscnvBusy User.nvrmOk 0xc0 ⟨7⟩ World.init).1 _ _ _
        rfl).2.2.2.2.2.2.2.1⟩,
   ⟨_, _, rfl,
      ((ctx_new_initial_rings pscnvBusy User.nvrmOk 0xc0 ⟨7⟩ World.init).2 _ _ rfl).1,
      ((ctx_new_initial_rings pscnvBusy User.nvrmOk 0xc0 ⟨7⟩ World.init).2 _ _ rfl).2.1,
      ((ctx_new_initial_rings pscnvBusy User.nvrmOk 0xc0 ⟨7⟩ World.init).2 _ _
        rfl).2.2.2.2⟩⟩

/-- C10 at concrete inputs: chipset `0x50` (not nvc0) and chipset `0xc0`, on an
all-succeeding backend. -/
theorem gdev_ctx_new_chipset_witness :
    (0x50 &&& 0xf0 ≠ 0xc0 ∧ (gdev_ctx_new pscnvOk 0x50 ⟨7⟩ World.init).1 = none ∧
      (gdev_ctx_new pscnvOk 0x50 ⟨7⟩ World.init).2.live = World.init.live) ∧
    ((0xc0 &&& 0xf0 = 0xc0 ∧ ∀ tr q, pscnvOk.ok tr q = true) ∧
      ∃ c, (gdev_ctx_new pscnvOk 0xc0 ⟨7⟩ World.init).1 = some c ∧
        c.fifo.regs = pscnvOk.nvc0_fifo_ctrl_ptr c.pctx ∧
        Ev.acq (Res.chan c.pctx) ∈
          World.init.since (gdev_ctx_new pscnvOk 0xc0 ⟨7⟩ World.init).2) :=
  ⟨⟨by decide,
      ((gdev_ctx_new_chipset pscnvOk 0x50 ⟨7⟩ World.init).1 (by decide)).1,
      ((gdev_ctx_new_chipset pscnvOk 0x50 ⟨7⟩ World.init).1 (by decide)).2.1⟩,
   ⟨⟨by decide, fun _ _ => rfl⟩,
      (gdev_ctx_new_chipset pscnvOk 0xc0 ⟨7⟩ World.init).2 ⟨by decide, fun _ _ => rfl⟩⟩⟩

/-! ## Queries -/

/-- C9 (as stated, refuted): on a supported device `gdev_raw_query` returns
`-EINVAL` and stores nothing for the recognized types `DEVICE_MEM_SIZE` and
`DMA_MEM_SIZE`. -/
theorem gdev_raw_query_mem_size_fails :
    User.nvrmOk.get_chipset.isSome = true ∧
    User.gdev_raw_query User.nvrmOk User.nvrmOk.GDEV_QUERY_DEVICE_MEM_SIZE = (-22, none) ∧
    User.gdev_raw_query User.nvrmOk User.nvrmOk.GDEV_QUERY_DMA_MEM_SIZE = (-22, none) := by
  decide

/-- C9 (amended): `gdev_query` returns 0 and stores a value exactly when the
type is one of `MP_COUNT`, `DEVICE_MEM_SIZE`, `DMA_MEM_SIZE`, `CHIPSET`, and
otherwise returns `-EINVAL` and stores nothing.  On a device whose chipset
lookup succeeds, and with the four type identifiers distinct, `gdev_raw_query`
returns 0 and stores a value exactly when the type is `MP_COUNT` or `CHIPSET`
(4, resp. `chip_major | chip_minor`); for every other type, `DEVICE_MEM_SIZE`
and `DMA_MEM_SIZE` included, it returns `-EINVAL` and stores nothing. -/
theorem query_outcome (Q : PscnvParams) (N : User.Nvrm) (type uninit chip_major
    chip_minor : Nat)
    (hchip : N.get_chipset = some (chip_major, chip_minor))
    (hdev : N.GDEV_QUERY_DEVICE_MEM_SIZE ≠ N.GDEV_QUERY_CHIPSET)
    (hdma : N.GDEV_QUERY_DMA_MEM_SIZE ≠ N.GDEV_QUERY_CHIPSET) :
    ((type = GDEV_NVIDIA_QUERY_MP_COUNT ∨ type = Q.GDEV_NVIDIA_QUERY_DEVICE_MEM_SIZE ∨
        type = Q.GDEV_NVIDIA_QUERY_DMA_MEM_SIZE ∨ type = Q.GDEV_NVIDIA_QUERY_CHIPSET) →
      (gdev_query Q type uninit).1 = 0 ∧ (gdev_query Q type uninit).2.isSome = true) ∧
    (¬ (type = GDEV_NVIDIA_QUERY_MP_COUNT ∨ type = Q.GDEV_NVIDIA_QUERY_DEVICE_MEM_SIZE ∨
        type = Q.GDEV_NVIDIA_QUERY_DMA_MEM_SIZE ∨ type = Q.GDEV_NVIDIA_QUERY_CHIPSET) →
      gdev_query Q type uninit = (-EINVAL, none)) ∧
    (type = GDEV_NVIDIA_QUERY_MP_COUNT → User.gdev_raw_query N type = (0, some 4)) ∧
    (type ≠ GDEV_NVIDIA_QUERY_MP_COUNT → type = N.GDEV_QUERY_CHIPSET →
      User.gdev_raw_query N type = (0, some (chip_major ||| chip_minor))) ∧
    (type ≠ GDEV_NVIDIA_QUERY_MP_COUNT → type ≠ N.GDEV_QUERY_CHIPSET →
      User.gdev_raw_query N type = (-EINVAL, none)) := by
  refine ⟨?_, ?_, ?_, ?_, ?_⟩
  · intro h
    unfold gdev_query
    split_ifs <;> simp_all
  · intro h
    unfold gdev_query
    split_ifs <;> simp_all
  · intro h
    simp [User.gdev_raw_query, h]
  · intro h1 h2
    subst h2
    simp [User.gdev_raw_query, h1, hchip, Ne.symm hdev, Ne.symm hdma]
  · intro h1 h2
    unfold User.gdev_raw_query
    split_ifs <;> simp_all

/-- C9 (amended) at a concrete input: type 3 is `CHIPSET` for the user-space
adapter and unrecognized by the kernel adapter. -/
theorem query_outcome_witness :
    (User.nvrmOk.get_chipset = some (0xc0, 0x08) ∧
      User.nvrmOk.GDEV_QUERY_DEVICE_MEM_SIZE ≠ User.nvrmOk.GDEV_QUERY_CHIPSET ∧
      User.nvrmOk.GDEV_QUERY_DMA_MEM_SIZE ≠ User.nvrmOk.GDEV_QUERY_CHIPSET) ∧
    gdev_query pscnvParamsOk 3 0 = (-EINVAL, none) ∧
    User.gdev_raw_query User.nvrmOk 3 = (0, some (0xc0 ||| 0x08)) :=
  ⟨⟨rfl, by decide, by decide⟩,
   (query_outcome pscnvParamsOk User.nvrmOk 3 0 0xc0 0x08 rfl (by decide) (by decide)).2.1
     (by decide),
   (query_outcome pscnvParamsOk User.nvrmOk 3 0 0xc0 0x08 rfl (by decide)
     (by decide)).2.2.2.1 (by decide) rfl⟩

/-! ## The device registry -/

theorem memset_zero_length (t : Nat → User.gdev_device) (c sz : Nat) (hsz : 0 < sz) :
    User.memset t c 0 sz = t := by
  funext i
  have hpos : 0 < (i + 1) * sz := Nat.mul_pos (Nat.succ_pos i) hsz
  have h : ¬ (i + 1) * sz ≤ 0 := Nat.not_le.2 hpos
  simp [User.memset, h]

theorem gdev_raw_dev_open_existing (H : User.Host) (minor : Nat) (R : User.Registry)
    (s : Nat) (t : Nat → User.gdev_device) (hs : R.nvrm_ctx = some s)
    (ht : R.gdevs = some t) (hok : (User.gdev_raw_dev_open H minor R).1 = some minor) :
    (User.gdev_raw_dev_open H minor R).2.nvrm_ctx = some s ∧
    ∃ t', (User.gdev_raw_dev_open H minor R).2.gdevs = some t' ∧
      (t' minor).users = (t minor).users + 1 ∧ ∀ j, j ≠ minor → t' j = t j := by
  simp only [User.gdev_raw_dev_open, hs, ht] at hok ⊢
  split_ifs at hok ⊢ with h0
  · rcases hd : H.nvrm_device_open s minor with _ | dev
    · simp [hd] at hok
    · refine ⟨rfl, _, rfl, ?_, ?_⟩
      · simp [User.gdev_init_device]
      · intro j hj
        simp [Function.update, hj]
  · refine ⟨rfl, _, rfl, ?_, ?_⟩
    · simp
    · intro j hj
      simp [Function.update, hj]

theorem gdev_raw_dev_close_spec (i : Nat) (R : User.Registry) (t : Nat → User.gdev_device)
    (ht : R.gdevs = some t) (hi : i < User.GDEV_DEVICE_MAX_COUNT)
    (hnn : ∀ j, j < User.GDEV_DEVICE_MAX_COUNT → j ≠ i → 0 ≤ (t j).users) :
    (((t i).users = 1 ∧ ∀ j, j < User.GDEV_DEVICE_MAX_COUNT → j ≠ i → (t j).users = 0) →
      (User.gdev_raw_dev_close i R).nvrm_ctx = none ∧
      (User.gdev_raw_dev_close i R).gdevs = none) ∧
    (¬ ((t i).users = 1 ∧
        ∀ j, j < User.GDEV_DEVICE_MAX_COUNT → j ≠ i → (t j).users = 0) →
      (User.gdev_raw_dev_close i R).nvrm_ctx = R.nvrm_ctx ∧
      ∃ t', (User.gdev_raw_dev_close i R).gdevs = some t' ∧
        (t' i).users = (t i).users - 1 ∧ ∀ j, j ≠ i → t' j = t j) := by
  have hany : ((List.range User.GDEV_DEVICE_MAX_COUNT).any (fun j =>
      decide ((Function.update t i { t i with users := (t i).users - 1 } j).users > 0))
        = true) ↔ (0 < (t i).users - 1 ∨
          ∃ j, j < User.GDEV_DEVICE_MAX_COUNT ∧ j ≠ i ∧ 0 < (t j).users) := by
    simp only [List.any_eq_true, List.mem_range, decide_eq_true_eq, gt_iff_lt]
    constructor
    · rintro ⟨j, hj, hpos⟩
      by_cases hji : j = i
      · subst hji
        left
        simpa using hpos
      · right
        exact ⟨j, hj, hji, by simpa [Function.update, hji] using hpos⟩
    · rintro (hpos | ⟨j, hj, hji, hpos⟩)
      · exact ⟨i, hi, by simpa using hpos⟩
      · exact ⟨j, hj, by simpa [Function.update, hji] using hpos⟩
  constructor
  · rintro ⟨h1, hz⟩
    have hno : ¬ (0 < (t i).users - 1 ∨
        ∃ j, j < User.GDEV_DEVICE_MAX_COUNT ∧ j ≠ i ∧ 0 < (t j).users) := by
      rintro (hpos | ⟨j, hj, hji, hpos⟩)
      · omega
      · have := hz j hj hji
        omega
    simp only [User.gdev_raw_dev_close, ht]
    rw [if_pos (by simp [h1]), if_neg (by rw [hany]; exact hno)]
    exact ⟨rfl, rfl⟩
  · intro hnot
    simp only [User.gdev_raw_dev_close, ht]
    by_cases h0 : (t i).users - 1 = 0
    · have hex : 0 < (t i).users - 1 ∨
          ∃ j, j < User.GDEV_DEVICE_MAX_COUNT ∧ j ≠ i ∧ 0 < (t j).users := by
        right
        by_contra hcon
        apply hnot
        refine ⟨by omega, ?_⟩
        intro j hj hji
        have h1 := hnn j hj hji
        have h2 : ¬ 0 < (t j).users := fun hp => hcon ⟨j, hj, hji, hp⟩
        omega
      rw [if_pos (by simp [h0]), if_pos (by rw [hany]; exact hex)]
      refine ⟨rfl, _, rfl, by simp, ?_⟩
      intro j hj
      simp [Function.update, hj]
    · rw [if_neg (by simpa using h0)]
      refine ⟨rfl, _, rfl, by simp, ?_⟩
      intro j hj
      simp [Function.update, hj]

/-- C11 (defect in the code): the table `MALLOC` hands out is not zeroed.  From
the initial state, with memory in which the count of slot 1 reads 1,
`gdev_raw_dev_open(0)` succeeds and leaves slot 0 with count 1; the matching
`gdev_raw_dev_close` brings it back to 0, finds slot 1 positive and returns, so
session and table stay allocated although every open was matched by a close.
With memory that happens to be all zero the same two calls release both. -/
theorem gdev_raw_dev_close_keeps_session :
    (User.gdev_raw_dev_open User.hostStale 0 User.Registry.init).1 = some 0 ∧
    (User.gdev_raw_dev_open User.hostStale 0 User.Registry.init).2.gdevs.map
      (fun t => ((t 0).users, (t 1).users)) = some (1, 1) ∧
    (User.gdev_raw_dev_close 0
      (User.gdev_raw_dev_open User.hostStale 0 User.Registry.init).2).nvrm_ctx = some 1 ∧
    (User.gdev_raw_dev_close 0
      (User.gdev_raw_dev_open User.hostStale 0 User.Registry.init).2).gdevs.map
      (fun t => ((t 0).users, (t 1).users)) = some (0, 1) ∧
    (User.gdev_raw_dev_close 0
      (User.gdev_raw_dev_open User.hostZero 0 User.Registry.init).2).nvrm_ctx = none ∧
    (User.gdev_raw_dev_close 0
      (User.gdev_raw_dev_open User.hostZero 0 User.Registry.init).2).gdevs.isNone = true := by
  decide

/-- C14 (defect in the code): `memset(gdevs, sizeof(*gdevs) * GDEV_DEVICE_MAX_COUNT, 0)`
passes the length as the fill byte and 0 as the length, so it sets no byte and
the table keeps what `MALLOC` handed out (with the two arguments the other way
round all 32 slots would be zero).  On the first open, with memory in which the
count of slot 0 reads 7 and that of slot 1 reads 3, the `users == 0` test reads
7, the backend device is not opened, and `gdev_raw_dev_open(0)` returns slot 0
with count 8 and no device handle, slot 1 still reading 3. -/
theorem gdev_raw_dev_open_table_not_zeroed :
    (∀ i, i < User.GDEV_DEVICE_MAX_COUNT →
      (User.hostDirty.MALLOC.map fun t =>
        User.memset t (User.hostDirty.sizeof_gdev * User.GDEV_DEVICE_MAX_COUNT) 0
          User.hostDirty.sizeof_gdev i) = User.hostDirty.MALLOC.map fun t => t i) ∧
    (∀ i, i < User.GDEV_DEVICE_MAX_COUNT →
      (User.hostDirty.MALLOC.map fun t =>
        User.memset t 0 (User.hostDirty.sizeof_gdev * User.GDEV_DEVICE_MAX_COUNT)
          User.hostDirty.sizeof_gdev i) = some User.gdev_device.zero) ∧
    (User.gdev_raw_dev_open User.hostDirty 0 User.Registry.init).1 = some 0 ∧
    (User.gdev_raw_dev_open User.hostDirty 0 User.Registry.init).2.gdevs.map
      (fun t => (t 0, (t 1).users)) = some ({ id := 0, users := 8, priv := none }, 3) := by
  decide

/-! ## Reading and writing memory objects -/

theorem sub64_eq (a b : Nat) (hab : b ≤ a) (ha : a < 2 ^ 64) :
    User.sub64 a b = a - b := by
  unfold User.sub64
  have hb : b < 2 ^ 64 := lt_of_le_of_lt hab ha
  rw [Nat.mod_eq_of_lt ha, Nat.mod_eq_of_lt hb]
  omega

theorem sub64_add (s k : Nat) (hk : k < 2 ^ 64) :
    User.sub64 ((s + k) % 2 ^ 64) s = k := by
  unfold User.sub64
  omega

theorem host_addr_lt (a : Nat) : a % 2 ^ 64 < 2 ^ 64 :=
  Nat.mod_lt _ (by decide)

theorem store_inside (m : User.HostMem) (p off : Nat) (buf : List User.Byte) (k : Nat)
    (hk : k < buf.length) (hn : buf.length ≤ 2 ^ 64) :
    (m.store p off buf) ((p + off + k) % 2 ^ 64) = buf.getD k 0 := by
  have hk64 : k < 2 ^ 64 := lt_of_lt_of_le hk hn
  simp only [User.HostMem.store, sub64_add (p + off) k hk64]
  rw [if_pos ⟨host_addr_lt _, hk⟩]

theorem store_outside (m : User.HostMem) (p off : Nat) (buf : List User.Byte) (j sz : Nat)
    (hsz : sz < 2 ^ 64) (hin : off + buf.length ≤ sz) (hj : j < sz)
    (hout : ¬ (off ≤ j ∧ j < off + buf.length)) :
    (m.store p off buf) ((p + j) % 2 ^ 64) = m ((p + j) % 2 ^ 64) := by
  simp only [User.HostMem.store]
  rw [if_neg]
  rintro ⟨-, hlt⟩
  unfold User.sub64 at hlt
  omega

theorem load_store (m : User.HostMem) (p off : Nat) (buf : List User.Byte)
    (hn : buf.length ≤ 2 ^ 64) :
    (m.store p off buf).load p off buf.length = buf := by
  apply List.ext_getElem
  · simp [User.HostMem.load]
  · intro i h1 h2
    simp only [User.HostMem.load, List.getElem_map, List.getElem_range]
    rw [store_inside m p off buf i h2 hn]
    simp [List.getD_eq_getElem?_getD, h2]

theorem load32_store32 (m : User.HostMem) (p off val : Nat) :
    (m.store p off (User.bytes32 val)).load32 p off = val % 2 ^ 32 := by
  have hn : (User.bytes32 val).length ≤ 2 ^ 64 := by simp [User.bytes32]
  have h0 := store_inside m p off (User.bytes32 val) 0 (by simp [User.bytes32]) hn
  have h1 := store_inside m p off (User.bytes32 val) 1 (by simp [User.bytes32]) hn
  have h2 := store_inside m p off (User.bytes32 val) 2 (by simp [User.bytes32]) hn
  have h3 := store_inside m p off (User.bytes32 val) 3 (by simp [User.bytes32]) hn
  simp only [User.HostMem.load32, h0, h1, h2, h3]
  simp [User.bytes32]
  omega

/-- No bounds check: a write of 4 bytes that starts 2 bytes below the object
lands its last two bytes on bytes 0 and 1 of the object, where a 32-bit read at
the object's start finds them. -/
theorem gdev_raw_write_below_start :
    (User.gdev_raw_read32 User.nvrmOk User.memMapped 0x200000 User.worldMapped
      (User.gdev_raw_write User.nvrmOk User.memMapped (0x200000 - 2) [1, 2, 0xbb, 0xaa] 4
        User.worldMapped User.memZero).m).ret = some 0xaabb := by
  decide

/-- No test of the pointer: when the temporary mapping is refused, a copy of no
bytes touches nothing and returns 0 after the call of `nvrm_bo_host_unmap`,
which finds nothing to undo; a copy of one byte does not return. -/
theorem gdev_raw_copy_through_null :
    (User.gdev_raw_read User.nvrmNoMap User.memUnmapped 0x200000 0 User.worldUnmapped
      User.memZero).ret = some (0, []) ∧
    (User.gdev_raw_write User.nvrmNoMap User.memUnmapped 0x200000 [] 0 User.worldUnmapped
      User.memZero).ret = some 0 ∧
    User.worldUnmapped.since (User.gdev_raw_read User.nvrmNoMap User.memUnmapped 0x200000 0
      User.worldUnmapped User.memZero).w = [Ev.refused (Req.nvrm_bo_host_map 1)] ∧
    (User.gdev_raw_write User.nvrmNoMap User.memUnmapped 0x200000 [7] 1 User.worldUnmapped
      User.memZero).ret = none := by
  decide

/-- C12 (as stated, refuted): for a memory object without a standing host
pointer, on a backend whose `nvrm_bo_host_map` yields no pointer, neither
`gdev_raw_write` nor `gdev_raw_read` of 4 bytes at an address inside the object
returns 0: both copy through the `NULL` pointer. -/
theorem gdev_raw_write_faults_without_mapping :
    User.memUnmapped.addr ≤ 0x200010 ∧
    (0x200010 - User.memUnmapped.addr) + 4 ≤ User.memUnmapped.size ∧
    (User.gdev_raw_write User.nvrmNoMap User.memUnmapped 0x200010 [1, 2, 3, 4] 4
      User.worldUnmapped User.memZero).ret = none ∧
    (User.gdev_raw_read User.nvrmNoMap User.memUnmapped 0x200010 4
      User.worldUnmapped User.memZero).ret = none := by
  decide

/-- C12 (amended): for a memory object with a standing host pointer, or one
whose temporary `nvrm_bo_host_map` succeeds, for an address `addr` with
`mem.addr ≤ addr` and a buffer of `n` bytes with `(addr - mem.addr) + n` not
exceeding the object's size, `gdev_raw_write(mem, addr, buf, n)` followed by
`gdev_raw_read(mem, out, addr, n)` returns 0 both times and delivers `buf` byte
for byte, and the write leaves every byte of the object outside
`[addr, addr + n)` unchanged; likewise, for an address `addr32` with 4 bytes
inside the object, `gdev_raw_read32` after `gdev_raw_write32(mem, addr32, val)`
returns `val` (as a 32-bit value) and the write leaves the other bytes of the
object unchanged.  Addresses and sizes are 64-bit values, `n` a 32-bit one. -/
theorem raw_write_read_roundtrip (N : User.Nvrm) (mem : User.gdev_mem)
    (addr addr32 val : Nat) (buf : List User.Byte) (w : World) (m : User.HostMem)
    (h : mem.map.isSome = true ∨ ∀ tr, N.ok tr (Req.nvrm_bo_host_map mem.bo.id) = true)
    (hsz : mem.size < 2 ^ 64) (hn : buf.length < 2 ^ 32)
    (haddr : mem.addr ≤ addr) (h64 : addr < 2 ^ 64)
    (hin : (addr - mem.addr) + buf.length ≤ mem.size)
    (haddr32 : mem.addr ≤ addr32) (h6432 : addr32 < 2 ^ 64)
    (hin32 : (addr32 - mem.addr) + 4 ≤ mem.size) :
    (User.gdev_raw_write N mem addr buf buf.length w m).ret = some 0 ∧
    (User.gdev_raw_read N (User.gdev_raw_write N mem addr buf buf.length w m).mem addr
      buf.length (User.gdev_raw_write N mem addr buf buf.length w m).w
      (User.gdev_raw_write N mem addr buf buf.length w m).m).ret = some (0, buf) ∧
    (∀ j, j < mem.size → ¬ (addr - mem.addr ≤ j ∧ j < addr - mem.addr + buf.length) →
      (User.gdev_raw_write N mem addr buf buf.length w m).m ((mem.window + j) % 2 ^ 64) =
        m ((mem.window + j) % 2 ^ 64)) ∧
    (User.gdev_raw_write32 N mem addr32 val w m).ret = some () ∧
    (User.gdev_raw_read32 N (User.gdev_raw_write32 N mem addr32 val w m).mem addr32
      (User.gdev_raw_write32 N mem addr32 val w m).w
      (User.gdev_raw_write32 N mem addr32 val w m).m).ret = some (val % 2 ^ 32) ∧
    (∀ j, j < mem.size → ¬ (addr32 - mem.addr ≤ j ∧ j < addr32 - mem.addr + 4) →
      (User.gdev_raw_write32 N mem addr32 val w m).m ((mem.window + j) % 2 ^ 64) =
        m ((mem.window + j) % 2 ^ 64)) := by
  have hoff : User.sub64 addr mem.addr = addr - mem.addr := sub64_eq addr mem.addr haddr h64
  have hoff32 : User.sub64 addr32 mem.addr = addr32 - mem.addr :=
    sub64_eq addr32 mem.addr haddr32 h6432
  have hn64 : buf.length ≤ 2 ^ 64 := by omega
  have hlen32 : (User.bytes32 val).length = 4 := by simp [User.bytes32]
  rcases hm : mem.map with _ | p
  · have hok : ∀ tr, N.ok tr (Req.nvrm_bo_host_map mem.bo.id) = true := by
      rcases h with h | h
      · simp [hm] at h
      · exact h
    refine ⟨?_, ?_, ?_, ?_, ?_, ?_⟩
    · simp [User.gdev_raw_write, User.host_ptr, User.access_base, User.nvrm_bo_host_map,
        hm, hok]
    · simp [User.gdev_raw_write, User.gdev_raw_read, User.host_ptr, User.host_ptr_done,
        User.access_base, User.nvrm_bo_host_map, User.nvrm_bo_host_unmap, hm, hok,
        load_store _ _ _ _ hn64]
    · intro j hj hout
      simp only [User.gdev_raw_write, User.host_ptr, User.access_base,
        User.nvrm_bo_host_map, hm, hok, User.gdev_mem.window, if_true, List.take_length,
        hoff]
      exact store_outside m _ _ buf j mem.size hsz hin hj hout
    · simp [User.gdev_raw_write32, User.host_ptr, User.access_base, User.nvrm_bo_host_map,
        hm, hok]
    · simp [User.gdev_raw_write32, User.gdev_raw_read32, User.host_ptr, User.host_ptr_done,
        User.access_base, User.nvrm_bo_host_map, User.nvrm_bo_host_unmap, hm, hok,
        load32_store32]
    · intro j hj hout
      simp only [User.gdev_raw_write32, User.host_ptr, User.access_base,
        User.nvrm_bo_host_map, hm, hok, User.gdev_mem.window, if_true, hoff32]
      exact store_outside m _ _ (User.bytes32 val) j mem.size hsz (by rw [hlen32]; exact hin32)
        hj (by rw [hlen32]; exact hout)
  · refine ⟨?_, ?_, ?_, ?_, ?_, ?_⟩
    · simp [User.gdev_raw_write, User.host_ptr, User.access_base, hm]
    · simp [User.gdev_raw_write, User.gdev_raw_read, User.host_ptr, User.host_ptr_done,
        User.access_base, hm, load_store _ _ _ _ hn64]
    · intro j hj hout
      simp only [User.gdev_raw_write, User.host_ptr, User.access_base, hm,
        User.gdev_mem.window, List.take_length, hoff]
      exact store_outside m _ _ buf j mem.size hsz hin hj hout
    · simp [User.gdev_raw_write32, User.host_ptr, User.access_base, hm]
    · simp [User.gdev_raw_write32, User.gdev_raw_read32, User.host_ptr, User.host_ptr_done,
        User.access_base, hm, load32_store32]
    · intro j hj hout
      simp only [User.gdev_raw_write32, User.host_ptr, User.access_base, hm,
        User.gdev_mem.window, hoff32]
      exact store_outside m _ _ (User.bytes32 val) j mem.size hsz (by rw [hlen32]; exact hin32)
        hj (by rw [hlen32]; exact hout)

/-- C12 (amended) at concrete inputs: 4 bytes at offset `0x10` of an object of
8192 bytes without a standing pointer, on an all-succeeding backend. -/
theorem raw_write_read_roundtrip_witness :
    ((∀ tr, User.nvrmOk.ok tr (Req.nvrm_bo_host_map User.memUnmapped.bo.id) = true) ∧
      User.memUnmapped.size < 2 ^ 64 ∧ ([1, 2, 3, 4] : List User.Byte).length < 2 ^ 32 ∧
      User.memUnmapped.addr ≤ 0x200010 ∧ 0x200010 < 2 ^ 64 ∧
      (0x200010 - User.memUnmapped.addr) + ([1, 2, 3, 4] : List User.Byte).length ≤
        User.memUnmapped.size ∧
      User.memUnmapped.addr ≤ 0x200ffc ∧ 0x200ffc < 2 ^ 64 ∧
      (0x200ffc - User.memUnmapped.addr) + 4 ≤ User.memUnmapped.size) ∧
    (User.gdev_raw_read User.nvrmOk
      (User.gdev_raw_write User.nvrmOk User.memUnmapped 0x200010 [1, 2, 3, 4] 4
        User.worldUnmapped User.memZero).mem 0x200010 4
      (User.gdev_raw_write User.nvrmOk User.memUnmapped 0x200010 [1, 2, 3, 4] 4
        User.worldUnmapped User.memZero).w
      (User.gdev_raw_write User.nvrmOk User.memUnmapped 0x200010 [1, 2, 3, 4] 4
        User.worldUnmapped User.memZero).m).ret = some (0, [1, 2, 3, 4]) ∧
    (User.gdev_raw_read32 User.nvrmOk
      (User.gdev_raw_write32 User.nvrmOk User.memUnmapped 0x200ffc 0xdeadbeef
        User.worldUnmapped User.memZero).mem 0x200ffc
      (User.gdev_raw_write32 User.nvrmOk User.memUnmapped 0x200ffc 0xdeadbeef
        User.worldUnmapped User.memZero).w
      (User.gdev_raw_write32 User.nvrmOk User.memUnmapped 0x200ffc 0xdeadbeef
        User.worldUnmapped User.memZero).m).ret = some (0xdeadbeef % 2 ^ 32) :=
  ⟨⟨fun _ => rfl, by decide, by decide, by decide, by decide, by decide, by decide,
      by decide, by decide⟩,
    (raw_write_read_roundtrip User.nvrmOk User.memUnmapped 0x200010 0x200ffc 0xdeadbeef
      [1, 2, 3, 4] User.worldUnmapped User.memZero (Or.inr fun _ => rfl) (by decide)
      (by decide) (by decide) (by decide) (by decide) (by decide) (by decide)
      (by decide)).2.1,
    (raw_write_read_roundtrip User.nvrmOk User.memUnmapped 0x200010 0x200ffc 0xdeadbeef
      [1, 2, 3, 4] User.worldUnmapped User.memZero (Or.inr fun _ => rfl) (by decide)
      (by decide) (by decide) (by decide) (by decide) (by decide) (by decide)
      (by decide)).2.2.2.2.1⟩

end Gdev
